import Mathlib

/-!
Verification of interop.cpp: the cross-process frame hand-off ring.

A shallow embedding of `src/interop/interop.cpp`: the shared control block
(`SharedData`), the producer tick (`generateNewFrame`), the consumer idle poll
(`idleMaster`) and redraw (`displayMaster`), the start-up path of `main`, and
theorems about them.

Conventions.
* `UINT32` / `UINT` values are `Nat`s below `2^32`; every arithmetic operation
  on them reduces modulo `4294967296` explicitly.
* `int` values are `Int`s; the conversion to unsigned that C applies when an
  `int` meets a `UINT32` operand is `toU32`.
* Calls into the platform (WGL, Direct3D, GLUT, Win32) are not computed: their
  boolean outcomes are arguments, and the calls that matter are recorded in a
  trace of `Event`s.
* `exit(code)` in a frame callback is recorded in the `exit` field of the
  result; the state is the one at the moment of the call. The `atexit` hooks
  `masterExitCalled` and `rendererExitCalled`, which only set a flag there, are
  definitions of their own. In `main` the hook is part of the model: an `exit`
  after its registration runs it, see `exitAfterAtexit`.
* The two processes share the control block and agree on
  `render_buffer_count`; one `State` holds both. A callback runs as one step:
  while `displayMaster` runs, the producer is quiescent.
-/

namespace Interop

/-! ## Machine arithmetic -/

/-- Unsigned 32-bit subtraction `a - b` of two `UINT32` operands. -/
def u32sub (a b : Nat) : Nat := (a + 4294967296 - b) % 4294967296

/-- Conversion of an `int` to `unsigned int` (usual arithmetic conversions). -/
def toU32 (i : Int) : Nat := (i % 4294967296).toNat

/-- Windows `InterlockedIncrement` on a `UINT32`: add one, wrapping at `2^32`. -/
def InterlockedIncrement (a : Nat) : Nat := (a + 1) % 4294967296

/-- The constant `#define MAX_RENDER_BUFFER 4`. -/
def MAX_RENDER_BUFFER : Nat := 4

/-! ## The shared control block -/

/-- The `struct SharedData`, field for field.  `sharedHandle` is the array of
`MAX_RENDER_BUFFER` handles, a handle being a number (`0` is `NULL`). -/
structure SharedData where
  render_interval : Int
  use_nvpr : Bool
  object_to_draw : Nat
  timer_updates_renderer_window : Int
  width : Nat
  height : Nat
  mipmap_sharetex : Bool
  logging : Bool
  use_sRGB : Bool
  render_buffer_count : Nat
  sharedHandle : List Nat
  produceCount : Nat
  consumeCount : Nat
  renderer_should_terminate : Bool
  master_should_terminate : Bool
deriving DecidableEq, Repr

/-- The counters hold `UINT32` values. -/
def SharedData.WF (d : SharedData) : Prop :=
  d.produceCount < 4294967296 ∧ d.consumeCount < 4294967296

instance (d : SharedData) : Decidable d.WF := by
  unfold SharedData.WF; infer_instance

/-- The two callbacks handed to `renderLockedSharedTexture`. -/
inductive RenderFunc where
  | renderSceneToTexture
  | renderSharedTexture
deriving DecidableEq, Repr

/-- What a callback does to the outside world, in program order. -/
inductive Event where
  /-- Call of `wglDXLockObjectsNV` on the slot's lock handle, with its result -/
  | lock (slot : Nat) (ok : Bool)
  /-- Invocation of `renderFunc(tex)` on the slot -/
  | call (f : RenderFunc) (slot : Nat)
  /-- Call of `wglDXUnlockObjectsNV` on the slot's lock handle, with its result -/
  | unlock (slot : Nat) (ok : Bool)
  /-- The "Waiting for renderer process to start..." screen of `displayMaster` -/
  | waiting
  /-- The `logf("skipping index = %d", ndx)` of the backlog loop -/
  | skip (slot : Nat)
  /-- Call of `glutPostRedisplay()` -/
  | postRedisplay
deriving DecidableEq, Repr

/-- State of one process as far as the frame loops read or write it: the mapped
control block and the globals `render_buffer_count` (an `int`) and
`current_sharetex_index` (master only). -/
structure State where
  sharedData : SharedData
  render_buffer_count : Int
  current_sharetex_index : Nat
deriving DecidableEq, Repr

/-- Result of running one callback. -/
structure Result where
  st : State
  trace : List Event
  exit : Option Int
deriving DecidableEq, Repr

/-! ## Lock / render / unlock -/

/-- Function `renderLockedSharedTexture(tex, renderFunc)` on slot `slot`; `lock_ok` and
`unlock_ok` are what `wglDXLockObjectsNV` and `wglDXUnlockObjectsNV` answer. -/
def renderLockedSharedTexture (lock_ok unlock_ok : Bool) (slot : Nat) (renderFunc : RenderFunc) :
    Bool × List Event :=
  if lock_ok then
    if unlock_ok then
      (true, [Event.lock slot true, Event.call renderFunc slot, Event.unlock slot true])
    else
      (false, [Event.lock slot true, Event.call renderFunc slot, Event.unlock slot false])
  else
    (false, [Event.lock slot false])

/-! ## Producer -/

/-- Function `generateNewFrame()`: one producer tick. -/
def generateNewFrame (lock_ok unlock_ok : Bool) (s : State) : Result :=
  if s.sharedData.renderer_should_terminate then
    { st := s, trace := [], exit := some 0 }
  else if u32sub s.sharedData.produceCount s.sharedData.consumeCount = toU32 s.render_buffer_count then
    { st := s, trace := [], exit := none }
  else
    let ndx := s.sharedData.produceCount % toU32 s.render_buffer_count
    let r := renderLockedSharedTexture lock_ok unlock_ok ndx RenderFunc.renderSceneToTexture
    { st := { s with sharedData :=
                { s.sharedData with produceCount := InterlockedIncrement s.sharedData.produceCount } },
      trace := r.2, exit := none }

/-! ## Consumer -/

/-- Function `idleMaster()`: the consumer's idle poll. -/
def idleMaster (s : State) : Result :=
  if s.sharedData.master_should_terminate then
    { st := s, trace := [], exit := some 0 }
  else if u32sub s.sharedData.produceCount s.sharedData.consumeCount = 0 then
    { st := s, trace := [], exit := none }
  else
    let ndx := s.sharedData.consumeCount % toU32 s.render_buffer_count
    { st := { s with current_sharetex_index := ndx }, trace := [Event.postRedisplay], exit := none }

/-- The backlog loop at the end of `displayMaster`:
`while (produceCount - consumeCount > 1) { logf(skipping ndx); InterlockedIncrement(&consumeCount); }`
run with the producer quiescent. -/
def skipBacklog (render_buffer_count : Int) (d : SharedData) : SharedData × List Event :=
  if 1 < u32sub d.produceCount d.consumeCount then
    let ndx := d.consumeCount % toU32 render_buffer_count
    let r := skipBacklog render_buffer_count
      { d with consumeCount := InterlockedIncrement d.consumeCount }
    (r.1, Event.skip ndx :: r.2)
  else
    (d, [])
termination_by u32sub d.produceCount d.consumeCount
decreasing_by
  simp only [u32sub, InterlockedIncrement] at *
  omega

/-- Function `displayMaster()`: the consumer's redraw. -/
def displayMaster (lock_ok unlock_ok : Bool) (s : State) : Result :=
  if u32sub s.sharedData.produceCount s.sharedData.consumeCount < 1 then
    { st := s, trace := [Event.waiting], exit := none }
  else
    let ndx := s.sharedData.consumeCount % toU32 s.render_buffer_count
    let r := renderLockedSharedTexture lock_ok unlock_ok ndx RenderFunc.renderSharedTexture
    let k := skipBacklog s.render_buffer_count s.sharedData
    { st := { s with sharedData := k.1, current_sharetex_index := ndx },
      trace := r.2 ++ k.2, exit := none }

/-- The master's `atexit` callback `masterExitCalled()`. -/
def masterExitCalled (s : State) : State :=
  { s with sharedData := { s.sharedData with renderer_should_terminate := true } }

/-- The renderer's `atexit` callback `rendererExitCalled()`. -/
def rendererExitCalled (s : State) : State :=
  { s with sharedData := { s.sharedData with master_should_terminate := true } }

/-! ## Reachable states -/

/-- States reachable, with `render_buffer_count = n`, from a control block whose
counters are both zero, by producer ticks, idle polls and redraws (under every
lock / unlock outcome) and by the two `atexit` hooks. -/
inductive Reachable (n : Int) : State → Prop where
  | init (s : State) (hn : s.render_buffer_count = n)
      (hp : s.sharedData.produceCount = 0) (hc : s.sharedData.consumeCount = 0) : Reachable n s
  | produce (s : State) (lock_ok unlock_ok : Bool) (h : Reachable n s) :
      Reachable n (generateNewFrame lock_ok unlock_ok s).st
  | idle (s : State) (h : Reachable n s) : Reachable n (idleMaster s).st
  | display (s : State) (lock_ok unlock_ok : Bool) (h : Reachable n s) :
      Reachable n (displayMaster lock_ok unlock_ok s).st
  | masterExit (s : State) (h : Reachable n s) : Reachable n (masterExitCalled s)
  | rendererExit (s : State) (h : Reachable n s) : Reachable n (rendererExitCalled s)

/-- A control block as the master leaves it before any frame exists, with a
given buffer count. -/
def initialState (n : Int) : State :=
  { sharedData :=
      { render_interval := 1000, use_nvpr := true, object_to_draw := 0,
        timer_updates_renderer_window := 1, width := 500, height := 500,
        mipmap_sharetex := true, logging := false, use_sRGB := false,
        render_buffer_count := toU32 n, sharedHandle := [1, 2, 3, 4],
        produceCount := 0, consumeCount := 0,
        renderer_should_terminate := false, master_should_terminate := false },
    render_buffer_count := n,
    current_sharetex_index := 4294967295 }

/-- A run of `k` producer ticks whose lock and unlock all succeed. -/
def produceFrames : Nat → State → State
  | 0, s => s
  | k + 1, s => (generateNewFrame true true (produceFrames k s)).st

/-- The operations either role runs on the ring, with the lock and unlock
outcomes of those that lock. -/
inductive Op where
  | producerTick (lock_ok unlock_ok : Bool)
  | idlePoll
  | redraw (lock_ok unlock_ok : Bool)
deriving DecidableEq, Repr

/-- Run one operation. -/
def Op.run : Op → State → Result
  | Op.producerTick l u, s => generateNewFrame l u s
  | Op.idlePoll, s => idleMaster s
  | Op.redraw l u, s => displayMaster l u s

/-! ## Start-up: command line, platform checks, spawning the renderer -/

/-- The `max` of `windows.h`: `(((a) > (b)) ? (a) : (b))`. -/
def max (a b : Int) : Int := if a > b then a else b

/-- The `min` of `windows.h`: `(((a) < (b)) ? (a) : (b))`. -/
def min (a b : Int) : Int := if a < b then a else b

/-- The file-scope variables that `main` sets from the command line. -/
structure Globals where
  fbo_width : Int
  fbo_height : Int
  use_sRGB : Bool
  set_dx_device_debug_flag : Bool
  logging : Bool
  swap_interval : Int
  mipmap_sharetex : Bool
  use_nvpr : Bool
  object_to_draw : Nat
  timer_updates_renderer_window : Bool
  i_am_master : Bool
  i_am_renderer : Bool
  render_buffer_count : Int
deriving DecidableEq, Repr

/-- The initialisers of the file-scope variables. -/
def Globals.initial : Globals :=
  { fbo_width := 500, fbo_height := 500, use_sRGB := false, set_dx_device_debug_flag := false,
    logging := false, swap_interval := 1, mipmap_sharetex := true, use_nvpr := true,
    object_to_draw := 0, timer_updates_renderer_window := true,
    i_am_master := true, i_am_renderer := false, render_buffer_count := 4 }

/-- The constant `#define SPAWN_RENDERER_FLAG "-renderer"`. -/
def SPAWN_RENDERER_FLAG : String := "-renderer"

/-- Case-insensitive comparison `!stricmp(a, b)` on ASCII strings. -/
def stricmpEq (a b : String) : Bool :=
  a.data.map Char.toLower == b.data.map Char.toLower

/-- What one pass through the body of the option loop of `main` does. -/
inductive OptionStep where
  /-- The usage message and `exit(code)` -/
  | exit (code : Int)
  /-- The `-renderer` branch: `startRendererProcess(map_file_handle); i++; break;` -/
  | renderer (g : Globals) (map_file_handle : Int)
  /-- An option without value: `continue` -/
  | next (g : Globals)
  /-- An option with a value: `i++; continue` -/
  | next2 (g : Globals)
deriving DecidableEq, Repr

/-- The body of the option loop of `main` at `argv[i] = a`, with `argv[i+1]`
given as `some v`, or `none` when it is `NULL`; `atoi` and `atoll` are the C
library functions. -/
def optionStep (atoi atoll : String → Int) (a : String) (next : Option String) (g : Globals) :
    OptionStep :=
  match decide (a = SPAWN_RENDERER_FLAG), next with
  | true, some v =>
    OptionStep.renderer { g with i_am_renderer := true, i_am_master := false } (atoll v)
  | _, _ =>
    if a = "-nomipmap" then OptionStep.next { g with mipmap_sharetex := false }
    else if stricmpEq a "-sRGB" then OptionStep.next { g with use_sRGB := true }
    else if stricmpEq a "-dxDebug" then OptionStep.next { g with set_dx_device_debug_flag := true }
    else if a = "-bitmap_text" then OptionStep.next { g with use_nvpr := false }
    else if a = "-novsync" then OptionStep.next { g with swap_interval := 0 }
    else if a = "-log" then OptionStep.next { g with logging := true }
    else
      match decide (a = "-buffers"), next with
      | true, some v =>
        OptionStep.next2 { g with render_buffer_count := max 2 (min (atoi v) 4) }
      | _, _ =>
        match decide (a = "-size"), next with
        | true, some v =>
          OptionStep.next2 { g with fbo_width := max 32 (min (atoi v) 4096),
                                    fbo_height := max 32 (min (atoi v) 4096) }
        | _, _ => OptionStep.exit 1

/-- How the option loop of `main` ends. -/
inductive Parsed where
  /-- The loop called `exit(code)` -/
  | exit (code : Int)
  /-- The loop ran to the end of `argv`, or left through `-renderer` with the
  handle value passed to `startRendererProcess` -/
  | run (g : Globals) (map_file_handle : Option Int)
deriving DecidableEq, Repr

/-- The option loop of `main` over `argv[1..argc-1]`. -/
def parseArgs (atoi atoll : String → Int) : List String → Globals → Parsed
  | [], g => Parsed.run g none
  | [a], g =>
    match optionStep atoi atoll a none g with
    | OptionStep.exit code => Parsed.exit code
    | OptionStep.renderer g1 h => Parsed.run g1 (some h)
    | OptionStep.next g1 => Parsed.run g1 none
    | OptionStep.next2 g1 => Parsed.run g1 none
  | a :: v :: rest, g =>
    match optionStep atoi atoll a (some v) g with
    | OptionStep.exit code => Parsed.exit code
    | OptionStep.renderer g1 h => Parsed.run g1 (some h)
    | OptionStep.next g1 => parseArgs atoi atoll (v :: rest) g1
    | OptionStep.next2 g1 => parseArgs atoi atoll rest g1

/-- The answers of the platform to the calls made during start-up; a field is
named after the call and is `true` when the call succeeds (returns `GLEW_OK`,
a non-`NULL` handle or pointer, a non-zero `BOOL`). `CreateSharedHandle i` is
the handle created for slot `i`, and `DuplicateHandle h` the handle the call
writes in the renderer for the master's handle `h`, `none` when it fails. -/
structure Platform where
  glewInit : Bool
  WGLExtensionSupported_WGL_NV_DX_interop2 : Bool
  glutExtensionSupported_GL_EXT_direct_state_access : Bool
  LoadLibraryA_d3d11 : Bool
  GetProcAddress_D3D11CreateDevice : Bool
  wglDXOpenDeviceNV : Bool
  CreateSharedHandle : Nat → Nat
  wglDXRegisterObjectNV : Nat → Bool
  CreateJobObject : Bool
  SetInformationJobObject : Bool
  CreateProcessA : Bool
  AssignProcessToJobObject : Bool
  DuplicateHandle : Nat → Option Nat

/-- The exit code of `fatalError(message)`, which ends in `exit(1)`. -/
def fatalError : Int := 1

/-- Function `LoadDirect3D()` on its first call: the exit code it ends the process
with, if any. -/
def LoadDirect3D (p : Platform) : Option Int :=
  if p.LoadLibraryA_d3d11 = false then some 0
  else if p.GetProcAddress_D3D11CreateDevice = false then some 0
  else none

/-- Function `InteropWithDirect3D()`: the exit code it ends the process with, if any. -/
def InteropWithDirect3D (p : Platform) : Option Int :=
  if p.wglDXOpenDeviceNV = false then some 1 else none

/-- Function `createTexture2D(sharetex[i], ...)` as far as it can end the process:
`exit(1)` when `wglDXRegisterObjectNV` returns no lock handle. -/
def createTexture2D (p : Platform) (i : Nat) : Option Int :=
  if p.wglDXRegisterObjectNV i = false then some 1 else none

/-- Function `createSharedTextures()`: `createTexture2D` on slots
`0 .. render_buffer_count - 1` in order, stopping at the first `exit`. -/
def createSharedTextures (p : Platform) (render_buffer_count : Int) : Option Int :=
  (List.range render_buffer_count.toNat).findSome? (createTexture2D p)

/-- The `sharetex[i].sharetex_handle` values after `createSharedTextures()`: the
created handle for the slots in use, the zero of static storage for the rest. -/
def sharetex_handles (p : Platform) (render_buffer_count : Int) : List Nat :=
  (List.range MAX_RENDER_BUFFER).map
    (fun (i : Nat) => if (i : Int) < render_buffer_count then p.CreateSharedHandle i else 0)

/-- What `spawnRendererProcess` does to the outside world, in program order. -/
inductive SpawnEvent where
  /-- A `reportf` diagnostic -/
  | report (message : String)
  /-- Call of `CreateJobObject` with its result -/
  | createJobObject (ok : Bool)
  /-- Call of `CreateProcessA` launching the renderer, with its result -/
  | createProcess (ok : Bool)
  /-- Call of `AssignProcessToJobObject` with its result -/
  | assignProcessToJobObject (ok : Bool)
deriving DecidableEq, Repr

/-- Result of `spawnRendererProcess`. -/
structure SpawnResult where
  sharedData : SharedData
  trace : List SpawnEvent
  exit : Option Int
deriving DecidableEq, Repr

/-- The call `ZeroMemory(sharedData, sizeof(sharedData))`. Its second argument
is the size of the pointer `sharedData`, 8 bytes on the 64-bit target, so it
clears the first 8 bytes of the structure: `render_interval` (offset 0, 4
bytes) and `use_nvpr` (offset 4) with its padding. -/
def ZeroMemory_sizeof_sharedData (d : SharedData) : SharedData :=
  { d with render_interval := 0, use_nvpr := false }

/-- Function `spawnRendererProcess(program)`, run by the master; `mapped` is the
content of the freshly mapped view and `handles` the `sharetex[i].sharetex_handle`
values. The `formatMessage` diagnostic that follows each failure report is
left out of the trace. -/
def spawnRendererProcess (p : Platform) (g : Globals) (handles : List Nat) (mapped : SharedData) :
    SpawnResult :=
  let z := ZeroMemory_sizeof_sharedData mapped
  let d : SharedData :=
    { z with
      render_interval := 1000
      use_nvpr := g.use_nvpr
      object_to_draw := g.object_to_draw
      timer_updates_renderer_window := if g.timer_updates_renderer_window then 1 else 0
      width := toU32 g.fbo_width
      height := toU32 g.fbo_height
      render_buffer_count := toU32 g.render_buffer_count
      mipmap_sharetex := g.mipmap_sharetex
      logging := g.logging
      use_sRGB := g.use_sRGB
      sharedHandle := (List.range MAX_RENDER_BUFFER).map (fun i => handles.getD i 0)
      renderer_should_terminate := false
      master_should_terminate := false }
  let job : List SpawnEvent :=
    if p.CreateJobObject then
      if p.SetInformationJobObject then [SpawnEvent.createJobObject true]
      else [SpawnEvent.createJobObject true, SpawnEvent.report "SetInformationJobObject failed!"]
    else [SpawnEvent.createJobObject false, SpawnEvent.report "CreateJobObject failed!"]
  if p.CreateProcessA = false then
    { sharedData := d
      trace := job ++ [SpawnEvent.createProcess false,
        SpawnEvent.report "CreateProcessA of renderer process failed"]
      exit := some 1 }
  else
    let assign : List SpawnEvent :=
      if p.AssignProcessToJobObject then [SpawnEvent.assignProcessToJobObject true]
      else [SpawnEvent.assignProcessToJobObject false,
        SpawnEvent.report "AssignProcessToJobObject failed"]
    { sharedData := d
      trace := job ++ [SpawnEvent.createProcess true] ++ assign ++
        [SpawnEvent.report "spawned renderer..."]
      exit := none }

/-! ## The renderer's attach step -/

/-- Result of `startRendererProcess`: the control block, the two role flags, and
whether every `assert(sharedData->sharedHandle[i])` held. -/
structure AttachResult where
  sharedData : SharedData
  i_am_renderer : Bool
  i_am_master : Bool
  assert_ok : Bool
deriving DecidableEq, Repr

/-- One pass of the handle loop of `startRendererProcess`, at index `i` of the
array `sharedData->sharedHandle`: read the entry, store 0 in it, then let
`DuplicateHandle` write its result there. `DuplicateHandle h` is the handle the
call writes on success, `none` when it fails and writes nothing. -/
def duplicateSlot (DuplicateHandle : Nat → Option Nat) (sharedHandle : List Nat) (i : Nat) :
    List Nat :=
  match DuplicateHandle (sharedHandle.getD i 0) with
  | some h => (sharedHandle.set i 0).set i h
  | none => sharedHandle.set i 0

/-- The handle loop of `startRendererProcess` over the indices still to do; it
ends at the first failed `assert(sharedData->sharedHandle[i])`. -/
def duplicateHandles (DuplicateHandle : Nat → Option Nat) : List Nat → List Nat → List Nat × Bool
  | [], sharedHandle => (sharedHandle, true)
  | i :: rest, sharedHandle =>
    if (duplicateSlot DuplicateHandle sharedHandle i).getD i 0 = 0 then
      (duplicateSlot DuplicateHandle sharedHandle i, false)
    else duplicateHandles DuplicateHandle rest (duplicateSlot DuplicateHandle sharedHandle i)

/-- Function `startRendererProcess(map_file_handle)`, run by the renderer on the
control block `d` it has mapped. -/
def startRendererProcess (DuplicateHandle : Nat → Option Nat) (d : SharedData) : AttachResult :=
  let r := duplicateHandles DuplicateHandle (List.range d.render_buffer_count) d.sharedHandle
  { sharedData := { d with sharedHandle := r.1 }
    i_am_renderer := true
    i_am_master := false
    assert_ok := r.2 }

/-! ## The start-up sequence of `main` -/

/-- How start-up ends. -/
inductive Startup where
  /-- The process ended in `exit(code)` and left with that exit code -/
  | exit (code : Int)
  /-- The master reached `glutMainLoop()` with these globals and control block -/
  | master (g : Globals) (d : SharedData)
  /-- The renderer passed the platform checks and enters `initRenderer()` -/
  | renderer (g : Globals) (map_file_handle : Option Int)
  /-- The process called `exit`, and its `atexit` hook wrote through the pointer
  `sharedData` while it was still `NULL`: the process died by access violation -/
  | crash
  /-- The process ended in `abort()` from a failed `assert` -/
  | abort
deriving DecidableEq, Repr

/-- The call `exit(code)` once `main` has registered the `atexit` hook of the
role, `masterExitCalled` or `rendererExitCalled`. The hook stores a flag through
the global pointer `sharedData`, given here as `none` while it is still `NULL`
and as the mapped control block afterwards. -/
def exitAfterAtexit (sharedData : Option SharedData) (code : Int) : Startup :=
  match sharedData with
  | none => Startup.crash
  | some _ => Startup.exit code

/-- Function `initMaster(program_name)`: `createSharedTextures()`, then
`spawnRendererProcess(program_name)`. The pointer `sharedData` is `NULL` until
`spawnRendererProcess` maps the view. -/
def initMaster (p : Platform) (g : Globals) (mapped : SharedData) : Startup :=
  match createSharedTextures p g.render_buffer_count with
  | some code => exitAfterAtexit none code
  | none =>
    let r := spawnRendererProcess p g (sharetex_handles p g.render_buffer_count) mapped
    match r.exit with
    | some code => exitAfterAtexit (some r.sharedData) code
    | none => Startup.master g r.sharedData

/-- The global pointer `sharedData` when `main` registers the `atexit` hook: still
`NULL` in the master, the control block `startRendererProcess` has mapped in the
renderer. -/
def sharedDataAtRegistration (p : Platform) (g : Globals) (mapped : SharedData) :
    Option SharedData :=
  if g.i_am_master then none
  else some (startRendererProcess p.DuplicateHandle mapped).sharedData

/-- Function `main(argc, argv)` up to the role's initialisation; `mapped` is the
content of the view the process maps, fresh in the master and the master's
control block in the renderer (the mapping itself is taken to succeed). In
order: the option loop, in which `-renderer` runs `startRendererProcess`;
`glewInit` and the two extension checks, which end in `fatalError`; the
registration of the role's `atexit` hook; `LoadDirect3D` and
`InteropWithDirect3D` (the `assert`s of `InitiallizeDirect3D` are taken to
hold); then `initMaster` in the master. -/
def main (atoi atoll : String → Int) (p : Platform) (args : List String) (mapped : SharedData) :
    Startup :=
  match parseArgs atoi atoll args Globals.initial with
  | Parsed.exit code => Startup.exit code
  | Parsed.run g h =>
    if g.i_am_renderer = true ∧
        (startRendererProcess p.DuplicateHandle mapped).assert_ok = false then
      Startup.abort
    else if p.glewInit = false then Startup.exit fatalError
    else if p.WGLExtensionSupported_WGL_NV_DX_interop2 = false then Startup.exit fatalError
    else if p.glutExtensionSupported_GL_EXT_direct_state_access = false then
      Startup.exit fatalError
    else
      match LoadDirect3D p with
      | some code => exitAfterAtexit (sharedDataAtRegistration p g mapped) code
      | none =>
        match InteropWithDirect3D p with
        | some code => exitAfterAtexit (sharedDataAtRegistration p g mapped) code
        | none => if g.i_am_master then initMaster p g mapped else Startup.renderer g h

/-- A platform on which every start-up call succeeds. -/
def Platform.allOk : Platform :=
  { glewInit := true, WGLExtensionSupported_WGL_NV_DX_interop2 := true,
    glutExtensionSupported_GL_EXT_direct_state_access := true,
    LoadLibraryA_d3d11 := true, GetProcAddress_D3D11CreateDevice := true,
    wglDXOpenDeviceNV := true, CreateSharedHandle := fun i => i + 1,
    wglDXRegisterObjectNV := fun _ => true, CreateJobObject := true,
    SetInformationJobObject := true, CreateProcessA := true, AssignProcessToJobObject := true,
    DuplicateHandle := fun h => some (h + 100) }

/-- A mapped view whose pages are all zero. -/
def zeroPage : SharedData :=
  { render_interval := 0, use_nvpr := false, object_to_draw := 0,
    timer_updates_renderer_window := 0, width := 0, height := 0,
    mipmap_sharetex := false, logging := false, use_sRGB := false,
    render_buffer_count := 0, sharedHandle := [0, 0, 0, 0],
    produceCount := 0, consumeCount := 0,
    renderer_should_terminate := false, master_should_terminate := false }

/-- The `skipping index` log lines of a backlog loop that starts at counter value
`c` and runs `k` times. -/
def skipTrace (n : Int) (c k : Nat) : List Event :=
  (List.range k).map (fun i => Event.skip (((c + i) % 4294967296) % toU32 n))

/-- The inductive invariant behind ring occupancy: the buffer count is `n`, the
counters are 32-bit values and their wrap-around difference is at most `n`. -/
def Inv (n : Int) (s : State) : Prop :=
  s.render_buffer_count = n ∧ s.sharedData.WF ∧
    u32sub s.sharedData.produceCount s.sharedData.consumeCount ≤ toU32 n

/-! ## The key and menu handler -/

/-- Function `grabAllLocks()`: lock every slot in use; `lock_ok i` is the answer of
`wglDXLockObjectsNV` for slot `i`. -/
def grabAllLocks (lock_ok : Nat → Bool) (render_buffer_count : Int) : List Event :=
  (List.range render_buffer_count.toNat).map (fun i => Event.lock i (lock_ok i))

/-- The value of a 32-bit `int` after arithmetic that leaves its range: wrapped
modulo `2^32` into `-2^31 .. 2^31 - 1`, as on the target. -/
def toInt32 (i : Int) : Int := (i + 2147483648) % 4294967296 - 2147483648

/-- Windows `InterlockedXor(&x, 0x1)` on a `LONG`: flip the lowest bit. -/
def InterlockedXor1 (x : Int) : Int := if x % 2 = 0 then x + 1 else x - 1

/-- Function `keyboard(c, x, y)` in the process whose role flag is
`i_am_renderer`. The global `swap_interval` of key `v` and the display units of
key `m` are not part of `State`. -/
def keyboard (i_am_renderer : Bool) (lock_ok : Nat → Bool) (unlock_ok : Bool) (c : Char)
    (s : State) : Result :=
  if c = Char.ofNat 27 then { st := s, trace := [], exit := some 0 }
  else if c = 't' then
    { st := { s with sharedData := { s.sharedData with
                timer_updates_renderer_window :=
                  InterlockedXor1 s.sharedData.timer_updates_renderer_window } },
      trace := [Event.postRedisplay], exit := none }
  else if c = 'o' then
    { st := { s with sharedData := { s.sharedData with
                object_to_draw := InterlockedIncrement s.sharedData.object_to_draw } },
      trace := [Event.postRedisplay], exit := none }
  else if c = ' ' then
    if i_am_renderer then
      generateNewFrame
        (lock_ok (s.sharedData.produceCount % toU32 s.render_buffer_count)) unlock_ok s
    else { st := s, trace := [], exit := none }
  else if c = '+' ∨ c = '=' then
    { st := { s with sharedData := { s.sharedData with
                render_interval :=
                  if s.sharedData.render_interval < 100 then
                    toInt32 (s.sharedData.render_interval + 10)
                  else toInt32 (s.sharedData.render_interval + 100) } },
      trace := [], exit := none }
  else if c = '-' ∨ c = '_' then
    { st := { s with sharedData := { s.sharedData with
                render_interval :=
                  if s.sharedData.render_interval ≤ 100 then
                    max 10 (toInt32 (s.sharedData.render_interval - 10))
                  else toInt32 (s.sharedData.render_interval - 100) } },
      trace := [], exit := none }
  else if c = 'l' then
    { st := { s with sharedData := { s.sharedData with logging := !s.sharedData.logging } },
      trace := [Event.postRedisplay], exit := none }
  else if c = 'H' then
    if i_am_renderer then
      { st := s, trace := grabAllLocks lock_ok s.render_buffer_count ++ [Event.postRedisplay],
        exit := none }
    else { st := s, trace := [Event.postRedisplay], exit := none }
  else if c = 'm' then { st := s, trace := [], exit := none }
  else if c = 'v' then { st := s, trace := [Event.postRedisplay], exit := none }
  else if c = Char.ofNat 13 then { st := s, trace := [Event.postRedisplay], exit := none }
  else { st := s, trace := [], exit := none }

/-- Function `menu(item)`: `keyboard(item, 0, 0)`. -/
def menu (i_am_renderer : Bool) (lock_ok : Nat → Bool) (unlock_ok : Bool) (item : Char)
    (s : State) : Result :=
  keyboard i_am_renderer lock_ok unlock_ok item s

/-- Whether an event is a call of `wglDXUnlockObjectsNV` on the given slot that
succeeded, and so released the lock. -/
def Event.isUnlockOf (slot : Nat) : Event → Bool
  | Event.unlock t ok => t == slot && ok
  | _ => false

/-- The slots whose lock a callback acquired and which no later successful
unlock in its trace released: the locks still held when the callback returns. -/
def heldAtReturn : List Event → List Nat
  | [] => []
  | Event.lock slot true :: rest =>
    if rest.any (Event.isUnlockOf slot) then heldAtReturn rest else slot :: heldAtReturn rest
  | _ :: rest => heldAtReturn rest

/-- Whether an event is a call of `wglDXUnlockObjectsNV` on the given slot,
whatever its result. -/
def Event.isUnlockCallOf (slot : Nat) : Event → Bool
  | Event.unlock t _ => t == slot
  | _ => false

/-- The slots whose lock a callback acquired and on which it made no unlock call
afterwards. -/
def lockedWithoutUnlockCall : List Event → List Nat
  | [] => []
  | Event.lock slot true :: rest =>
    if rest.any (Event.isUnlockCallOf slot) then lockedWithoutUnlockCall rest
    else slot :: lockedWithoutUnlockCall rest
  | _ :: rest => lockedWithoutUnlockCall rest

/-- The slots on which a trace invokes a render or display callback. -/
def calledSlots : List Event → List Nat
  | [] => []
  | Event.call _ slot :: rest => slot :: calledSlots rest
  | _ :: rest => calledSlots rest

/-- The slots on which a trace calls `wglDXLockObjectsNV`. -/
def lockedSlots : List Event → List Nat
  | [] => []
  | Event.lock slot _ :: rest => slot :: lockedSlots rest
  | _ :: rest => lockedSlots rest

/-! ## Extension lookup -/

/-- C library `strstr(haystack, needle)` on strings given as lists of characters:
the offset of the first occurrence of `needle`, `none` for `NULL`. -/
def strstr : List Char → List Char → Option Nat
  | [], needle => if needle = [] then some 0 else none
  | c :: haystack, needle =>
    if needle.isPrefixOf (c :: haystack) then some 0
    else (strstr haystack needle).map (fun w => w + 1)

/-- The `for (;;)` loop of `findExtension`, with `start` the part of
`extensions` from the pointer `start` on; at most `fuel` passes, `none` when they
do not reach a `return`. The end of the list is the terminating NUL. -/
def findExtensionLoop (extension : List Char) : Nat → List Char → Option Int
  | 0, _ => none
  | fuel + 1, start =>
    match strstr start extension with
    | none => some 0
    | some w =>
      let terminator := start.drop (w + extension.length)
      if (w = 0 ∨ start[w - 1]? = some ' ') ∧ (terminator.head? = some ' ' ∨ terminator = []) then
        some 1
      else findExtensionLoop extension fuel terminator

/-- Function `findExtension(extension, extensions)`; the loop gets one pass more
than `extensions` has characters, and `none` stands for a loop that does not
return within them. -/
def findExtension (extension extensions : String) : Option Int :=
  findExtensionLoop extension.data (extensions.data.length + 1) extensions.data

/-- The space-separated names of an extension string. -/
def extensionNames (extensions : String) : List (List Char) :=
  (extensions.data.splitOn ' ').filter (fun name => name ≠ [])

/-! ## Mip levels -/

/-- The loop `while (val > 1) { val >>= 1; ret++; }` of `ilog2`. -/
def ilog2Loop (val ret : Nat) : Nat :=
  if 1 < val then ilog2Loop (val / 2) ((ret + 1) % 4294967296) else ret
termination_by val
decreasing_by omega

/-- Function `ilog2(val)` on an `unsigned int`; `none` is the failed
`assert(val != 0)`. -/
def ilog2 (val : Nat) : Option Nat :=
  if val = 0 then none
  else if val = 1 then some 0
  else some (ilog2Loop val 0)

/-- The `dcolor.MipLevels` that `createTexture2D(tex, width, height, sRGB)` passes
to `CreateTexture2D`, under the global `mipmap_sharetex`. -/
def createTexture2D_MipLevels (mipmap_sharetex : Bool) (width height : Int) : Option Nat :=
  if mipmap_sharetex then ilog2 (toU32 (max width height)) else some 1

/-- The invariant behind "the ring is empty only before the first frame":
ring occupancy, and a wrap-around difference of 0 only with both counters 0. -/
def InvNonEmpty (n : Int) (s : State) : Prop :=
  Inv n s ∧
    (u32sub s.sharedData.produceCount s.sharedData.consumeCount = 0 →
      s.sharedData.produceCount = 0 ∧ s.sharedData.consumeCount = 0)

/-- The states of `Reachable`, each with the number of producer ticks so far that
incremented `produceCount`. -/
inductive ReachableTicks (n : Int) : Nat → State → Prop where
  | init (s : State) (hn : s.render_buffer_count = n)
      (hp : s.sharedData.produceCount = 0) (hc : s.sharedData.consumeCount = 0) :
      ReachableTicks n 0 s
  | produce (s : State) (lock_ok unlock_ok : Bool) (k : Nat) (h : ReachableTicks n k s) :
      ReachableTicks n
        (if (generateNewFrame lock_ok unlock_ok s).st.sharedData.produceCount =
            s.sharedData.produceCount then k else k + 1)
        (generateNewFrame lock_ok unlock_ok s).st
  | idle (s : State) (k : Nat) (h : ReachableTicks n k s) : ReachableTicks n k (idleMaster s).st
  | display (s : State) (lock_ok unlock_ok : Bool) (k : Nat) (h : ReachableTicks n k s) :
      ReachableTicks n k (displayMaster lock_ok unlock_ok s).st
  | masterExit (s : State) (k : Nat) (h : ReachableTicks n k s) :
      ReachableTicks n k (masterExitCalled s)
  | rendererExit (s : State) (k : Nat) (h : ReachableTicks n k s) :
      ReachableTicks n k (rendererExitCalled s)

/-! ## Arithmetic lemmas -/

/-- On the non-negative `int`s the conversion to `unsigned int` keeps the value. -/
theorem toU32_of_nonneg (n : Int) (h0 : 0 ≤ n) (h1 : n < 4294967296) : toU32 n = n.toNat := by
  unfold toU32
  omega

/-! ## The backlog loop -/

theorem skipBacklog_fst (n : Int) (d : SharedData) :
    (skipBacklog n d).1 =
      { d with consumeCount :=
          if 1 < u32sub d.produceCount d.consumeCount then
            (d.consumeCount + (u32sub d.produceCount d.consumeCount - 1)) % 4294967296
          else d.consumeCount } := by
  induction d using skipBacklog.induct n with
  | case1 d h ih =>
    rw [skipBacklog, if_pos h]
    simp only [ih]
    simp only [u32sub, InterlockedIncrement] at h ⊢
    congr 1
    rw [if_pos h]
    split <;> omega
  | case2 d h =>
    rw [skipBacklog, if_neg h]
    simp [h]

theorem skipTrace_succ (n : Int) (c k : Nat) (hc : c < 4294967296) :
    skipTrace n c (k + 1) = Event.skip (c % toU32 n) :: skipTrace n ((c + 1) % 4294967296) k := by
  unfold skipTrace
  rw [List.range_succ_eq_map, List.map_cons, List.map_map]
  congr 1
  · simp [Nat.mod_eq_of_lt hc]
  · apply List.map_congr_left
    intro i _
    simp only [Function.comp]
    congr 2
    omega

theorem skipBacklog_snd (n : Int) (d : SharedData) (hc : d.consumeCount < 4294967296) :
    (skipBacklog n d).2 =
      skipTrace n d.consumeCount (u32sub d.produceCount d.consumeCount - 1) := by
  induction d using skipBacklog.induct n with
  | case1 d h ih =>
    rw [skipBacklog, if_pos h]
    have hlt : InterlockedIncrement d.consumeCount < 4294967296 := by
      simp only [InterlockedIncrement]; omega
    simp only [ih hlt]
    have hk : u32sub d.produceCount d.consumeCount - 1 =
        (u32sub d.produceCount (InterlockedIncrement d.consumeCount) - 1) + 1 := by
      simp only [u32sub, InterlockedIncrement] at h ⊢
      omega
    rw [hk, skipTrace_succ n _ _ hc]
    rfl
  | case2 d h =>
    rw [skipBacklog, if_neg h]
    have hk : u32sub d.produceCount d.consumeCount - 1 = 0 := by omega
    rw [hk]
    rfl

theorem skipBacklog_produceCount (n : Int) (d : SharedData) :
    (skipBacklog n d).1.produceCount = d.produceCount := by
  rw [skipBacklog_fst]

/-- Closed form of a redraw: the waiting screen when the ring is empty, otherwise
lock / display / unlock of slot `consumeCount mod render_buffer_count`, then the
backlog loop that leaves exactly one frame unconsumed. -/
theorem displayMaster_eq (l u : Bool) (s : State) (hc : s.sharedData.consumeCount < 4294967296) :
    displayMaster l u s =
      if u32sub s.sharedData.produceCount s.sharedData.consumeCount < 1 then
        { st := s, trace := [Event.waiting], exit := none }
      else
        { st :=
            { s with
              sharedData :=
                { s.sharedData with
                  consumeCount :=
                    if 1 < u32sub s.sharedData.produceCount s.sharedData.consumeCount then
                      (s.sharedData.consumeCount +
                        (u32sub s.sharedData.produceCount s.sharedData.consumeCount - 1)) % 4294967296
                    else s.sharedData.consumeCount }
              current_sharetex_index := s.sharedData.consumeCount % toU32 s.render_buffer_count }
          trace :=
            (renderLockedSharedTexture l u (s.sharedData.consumeCount % toU32 s.render_buffer_count)
              RenderFunc.renderSharedTexture).2 ++
            skipTrace s.render_buffer_count s.sharedData.consumeCount
              (u32sub s.sharedData.produceCount s.sharedData.consumeCount - 1)
          exit := none } := by
  unfold displayMaster
  simp only [skipBacklog_fst, skipBacklog_snd _ _ hc]

/-- After `k` successful ticks from an empty ring, with `k` at most the buffer
count, `produceCount` is `k` and nothing else has changed. -/
theorem produceFrames_eq (k : Nat) (s0 : State)
    (hp : s0.sharedData.produceCount = 0) (hc : s0.sharedData.consumeCount = 0)
    (hf : s0.sharedData.renderer_should_terminate = false)
    (hk : k ≤ toU32 s0.render_buffer_count) :
    produceFrames k s0 = { s0 with sharedData := { s0.sharedData with produceCount := k } } := by
  induction k with
  | zero =>
    simp only [produceFrames]
    rw [← hp]
  | succ k ih =>
    have hlt : toU32 s0.render_buffer_count < 4294967296 := by
      unfold toU32; omega
    rw [produceFrames, ih (by omega)]
    unfold generateNewFrame
    have hne : ¬ (u32sub k 0 = toU32 s0.render_buffer_count) := by
      unfold u32sub; omega
    have hk1 : InterlockedIncrement k = k + 1 := by
      unfold InterlockedIncrement; omega
    simp [hf, hc, hne, hk1]

/-- The `k+1`-st frame of such a run is rendered into slot `k mod render_buffer_count`. -/
theorem produceFrames_trace (k : Nat) (s0 : State)
    (hp : s0.sharedData.produceCount = 0) (hc : s0.sharedData.consumeCount = 0)
    (hf : s0.sharedData.renderer_should_terminate = false)
    (hk : k < toU32 s0.render_buffer_count) :
    (generateNewFrame true true (produceFrames k s0)).trace =
      [Event.lock (k % toU32 s0.render_buffer_count) true,
       Event.call RenderFunc.renderSceneToTexture (k % toU32 s0.render_buffer_count),
       Event.unlock (k % toU32 s0.render_buffer_count) true] := by
  have hlt : toU32 s0.render_buffer_count < 4294967296 := by
    unfold toU32; omega
  rw [produceFrames_eq k s0 hp hc hf (by omega)]
  unfold generateNewFrame
  have hne : ¬ (u32sub k 0 = toU32 s0.render_buffer_count) := by
    unfold u32sub; omega
  simp [hf, hc, hne, renderLockedSharedTexture]

/-! ## Ring occupancy -/

theorem Inv_generateNewFrame (n : Int) (l u : Bool) (s : State)
    (h : Inv n s) : Inv n (generateNewFrame l u s).st := by
  obtain ⟨h1, ⟨hp, hc⟩, h3⟩ := h
  unfold generateNewFrame
  split
  · exact ⟨h1, ⟨hp, hc⟩, h3⟩
  · split
    · exact ⟨h1, ⟨hp, hc⟩, h3⟩
    · rename_i hne
      rw [h1] at hne
      refine ⟨h1, ⟨?_, hc⟩, ?_⟩
      · simp only [InterlockedIncrement]; omega
      · simp only [u32sub, InterlockedIncrement, toU32] at *
        omega

theorem Inv_idleMaster (n : Int) (s : State) (h : Inv n s) : Inv n (idleMaster s).st := by
  unfold idleMaster
  split
  · exact h
  · split
    · exact h
    · exact h

theorem Inv_displayMaster (n : Int) (l u : Bool) (s : State)
    (h : Inv n s) : Inv n (displayMaster l u s).st := by
  obtain ⟨h1, ⟨hp, hc⟩, h3⟩ := h
  unfold displayMaster
  split
  · exact ⟨h1, ⟨hp, hc⟩, h3⟩
  · refine ⟨h1, ⟨?_, ?_⟩, ?_⟩
    · simp only [skipBacklog_fst]; exact hp
    · simp only [skipBacklog_fst]
      split
      · omega
      · exact hc
    · simp only [skipBacklog_fst]
      simp only [u32sub, toU32] at *
      split <;> omega

theorem Inv_of_Reachable (n : Int) (s : State) (h : Reachable n s) :
    Inv n s := by
  induction h with
  | init s h1 hp hc =>
    refine ⟨h1, ⟨by omega, by omega⟩, ?_⟩
    rw [hp, hc]
    simp only [u32sub, toU32]
    omega
  | produce s l u _ ih => exact Inv_generateNewFrame n l u s ih
  | idle s _ ih => exact Inv_idleMaster n s ih
  | display s l u _ ih => exact Inv_displayMaster n l u s ih
  | masterExit s _ ih => exact ih
  | rendererExit s _ ih => exact ih

/-- C1. Ring occupancy: for a buffer count `n` in `2..4`, every state reachable
from a control block with both counters zero, by producer ticks under any lock
and unlock outcome, idle polls and redraws, has a 32-bit wrap-around difference
`produceCount - consumeCount` between `0` and `n`. -/
theorem ring_occupancy_invariant (n : Int) (hn : 2 ≤ n ∧ n ≤ 4) (s : State)
    (h : Reachable n s) :
    (0 : Int) ≤ (u32sub s.sharedData.produceCount s.sharedData.consumeCount : Nat) ∧
      ((u32sub s.sharedData.produceCount s.sharedData.consumeCount : Nat) : Int) ≤ n := by
  obtain ⟨_, _, h3⟩ := Inv_of_Reachable n s h
  simp only [toU32] at h3
  omega

/-- Witness for C1: the state after one producer tick whose lock failed and one
redraw, with four buffers. -/
theorem ring_occupancy_invariant_witness :
    ((2 : Int) ≤ 4 ∧ (4 : Int) ≤ 4) ∧
    Reachable 4 (displayMaster true true (generateNewFrame false true (initialState 4)).st).st ∧
    (0 : Int) ≤ (u32sub
        (displayMaster true true (generateNewFrame false true (initialState 4)).st).st.sharedData.produceCount
        (displayMaster true true (generateNewFrame false true (initialState 4)).st).st.sharedData.consumeCount : Nat) ∧
    ((u32sub
        (displayMaster true true (generateNewFrame false true (initialState 4)).st).st.sharedData.produceCount
        (displayMaster true true (generateNewFrame false true (initialState 4)).st).st.sharedData.consumeCount : Nat) : Int) ≤ 4 :=
  ⟨by decide,
   Reachable.display _ true true (Reachable.produce _ false true (Reachable.init _ rfl rfl rfl)),
   ring_occupancy_invariant 4 (by decide) _
     (Reachable.display _ true true (Reachable.produce _ false true (Reachable.init _ rfl rfl rfl)))⟩

/-! ## Coalescing -/

/-- C2, counterexample. Four buffers, three frames produced by successful ticks
(the third into slot 2), nothing consumed: one redraw locks and displays slot 0,
the slot of frame 1, and moves `consumeCount` from 0 to 2, not to 3; slot 2 is
not displayed. -/
theorem coalescing_counterexample :
    (produceFrames 3 (initialState 4)).sharedData.produceCount = 3 ∧
    (produceFrames 3 (initialState 4)).sharedData.consumeCount = 0 ∧
    (generateNewFrame true true (produceFrames 2 (initialState 4))).trace =
      [Event.lock 2 true, Event.call RenderFunc.renderSceneToTexture 2, Event.unlock 2 true] ∧
    (displayMaster true true (produceFrames 3 (initialState 4))).trace =
      [Event.lock 0 true, Event.call RenderFunc.renderSharedTexture 0, Event.unlock 0 true,
       Event.skip 0, Event.skip 1] ∧
    (displayMaster true true (produceFrames 3 (initialState 4))).st.sharedData.consumeCount = 2 ∧
    ¬ ((displayMaster true true (produceFrames 3 (initialState 4))).st.sharedData.consumeCount =
          ((produceFrames 3 (initialState 4)).sharedData.consumeCount + 3) % 4294967296 ∧
        Event.call RenderFunc.renderSharedTexture 2 ∈
          (displayMaster true true (produceFrames 3 (initialState 4))).trace) := by
  rw [displayMaster_eq true true _ (by decide)]
  decide

/-- C2, amended. Four buffers, `k` frames (`1 ≤ k ≤ 4`) produced by successful
ticks from an empty ring, nothing consumed: frame 1 went into slot 0, and one
redraw locks and displays slot 0 only, logs the skipped counter values
`0 .. k-2`, and leaves `consumeCount = k - 1`, one short of `produceCount = k`. -/
theorem coalescing_oldest_displayed (k : Nat) (hk : 1 ≤ k ∧ k ≤ 4) (s0 : State)
    (h4 : s0.render_buffer_count = 4)
    (hp : s0.sharedData.produceCount = 0) (hc : s0.sharedData.consumeCount = 0)
    (hf : s0.sharedData.renderer_should_terminate = false) :
    (generateNewFrame true true s0).trace =
      [Event.lock 0 true, Event.call RenderFunc.renderSceneToTexture 0, Event.unlock 0 true] ∧
    (displayMaster true true (produceFrames k s0)).trace =
      [Event.lock 0 true, Event.call RenderFunc.renderSharedTexture 0, Event.unlock 0 true] ++
        (List.range (k - 1)).map Event.skip ∧
    (displayMaster true true (produceFrames k s0)).st.sharedData.consumeCount = k - 1 ∧
    (displayMaster true true (produceFrames k s0)).st.sharedData.produceCount = k := by
  have h4u : toU32 s0.render_buffer_count = 4 := by rw [h4]; decide
  have h0 := produceFrames_trace 0 s0 hp hc hf (by omega)
  rw [h4u] at h0
  refine ⟨h0, ?_⟩
  rw [produceFrames_eq k s0 hp hc hf (by omega)]
  rw [displayMaster_eq true true _ (by simp only [hc]; omega)]
  have hd : u32sub k 0 = k := by unfold u32sub; omega
  have h1 : ¬ (k < 1) := by omega
  simp only [hc, hd, h1, if_false, h4u]
  refine ⟨?_, ?_, trivial⟩
  · have hr : (renderLockedSharedTexture true true (0 % 4) RenderFunc.renderSharedTexture).2 =
        [Event.lock 0 true, Event.call RenderFunc.renderSharedTexture 0, Event.unlock 0 true] := rfl
    have hs : skipTrace s0.render_buffer_count 0 (k - 1) = (List.range (k - 1)).map Event.skip := by
      unfold skipTrace
      apply List.map_congr_left
      intro i hi
      rw [List.mem_range] at hi
      have hi4 : (0 + i) % 4294967296 % 4 = i := by omega
      rw [h4u, hi4]
    rw [hr, hs]
  · split <;> omega

/-- Witness for C2, amended: three frames. -/
theorem coalescing_oldest_displayed_witness :
    (1 ≤ 3 ∧ 3 ≤ 4) ∧
    (displayMaster true true (produceFrames 3 (initialState 4))).st.sharedData.consumeCount = 3 - 1 :=
  ⟨by decide,
   (coalescing_oldest_displayed 3 (by decide) (initialState 4) rfl rfl rfl rfl).2.2.1⟩

/-! ## Staleness -/

theorem Reachable_produceFrames (n : Int) (k : Nat) (s : State) (h : Reachable n s) :
    Reachable n (produceFrames k s) := by
  induction k with
  | zero => exact h
  | succ k ih => exact Reachable.produce _ true true ih

/-- C3, counterexample. Four buffers, four frames produced (counter value 0 into
slot 0, ..., counter value 3, the most recent, into slot 3), nothing consumed:
the state is reachable, the redraw reads `produceCount = 4` and displays slot 0,
the slot of counter value `consumeCount = 0`, which is 4 away from
`produceCount` and three frames older than the most recent frame. -/
theorem staleness_counterexample :
    Reachable 4 (produceFrames 4 (initialState 4)) ∧
    (produceFrames 4 (initialState 4)).sharedData.produceCount = 4 ∧
    (produceFrames 4 (initialState 4)).sharedData.consumeCount = 0 ∧
    (generateNewFrame true true (produceFrames 0 (initialState 4))).trace =
      [Event.lock 0 true, Event.call RenderFunc.renderSceneToTexture 0, Event.unlock 0 true] ∧
    (generateNewFrame true true (produceFrames 3 (initialState 4))).trace =
      [Event.lock 3 true, Event.call RenderFunc.renderSceneToTexture 3, Event.unlock 3 true] ∧
    (displayMaster true true (produceFrames 4 (initialState 4))).trace =
      [Event.lock 0 true, Event.call RenderFunc.renderSharedTexture 0, Event.unlock 0 true,
       Event.skip 0, Event.skip 1, Event.skip 2] ∧
    ¬ (u32sub (produceFrames 4 (initialState 4)).sharedData.produceCount
          (produceFrames 4 (initialState 4)).sharedData.consumeCount ≤ 1) := by
  refine ⟨Reachable_produceFrames 4 4 _ (Reachable.init _ rfl rfl rfl), ?_⟩
  rw [displayMaster_eq true true _ (by decide)]
  decide

/-- C3, amended. For `n` in `2..4` and a reachable state with at least one
unconsumed frame, a redraw locks and displays the slot of the oldest unconsumed
frame, `consumeCount mod n` for the `consumeCount` read at entry; that counter
value is between 1 and `n` behind the `produceCount` read at the redraw; and
the redraw returns with `produceCount - consumeCount = 1`. -/
theorem staleness_within_buffer_count (n : Int) (hn : 2 ≤ n ∧ n ≤ 4) (s : State)
    (h : Reachable n s)
    (h1 : 1 ≤ u32sub s.sharedData.produceCount s.sharedData.consumeCount) (l u : Bool) :
    (displayMaster l u s).trace =
      (renderLockedSharedTexture l u (s.sharedData.consumeCount % n.toNat)
        RenderFunc.renderSharedTexture).2 ++
      skipTrace n s.sharedData.consumeCount
        (u32sub s.sharedData.produceCount s.sharedData.consumeCount - 1) ∧
    ((u32sub s.sharedData.produceCount s.sharedData.consumeCount : Nat) : Int) ≤ n ∧
    u32sub (displayMaster l u s).st.sharedData.produceCount
      (displayMaster l u s).st.sharedData.consumeCount = 1 := by
  obtain ⟨hr, ⟨hp, hc⟩, h3⟩ := Inv_of_Reachable n s h
  have hnu : toU32 n = n.toNat := toU32_of_nonneg n (by omega) (by omega)
  rw [displayMaster_eq l u s hc]
  have h0 : ¬ (u32sub s.sharedData.produceCount s.sharedData.consumeCount < 1) := by omega
  simp only [h0, if_false, hr, hnu]
  refine ⟨trivial, ?_, ?_⟩
  · rw [hnu] at h3; omega
  · simp only [u32sub] at h1 ⊢
    split <;> omega

/-- Witness for C3, amended: four buffers, four frames produced, none consumed. -/
theorem staleness_within_buffer_count_witness :
    ((2 : Int) ≤ 4 ∧ (4 : Int) ≤ 4) ∧
    Reachable 4 (produceFrames 4 (initialState 4)) ∧
    1 ≤ u32sub (produceFrames 4 (initialState 4)).sharedData.produceCount
          (produceFrames 4 (initialState 4)).sharedData.consumeCount ∧
    u32sub (displayMaster true true (produceFrames 4 (initialState 4))).st.sharedData.produceCount
      (displayMaster true true (produceFrames 4 (initialState 4))).st.sharedData.consumeCount = 1 :=
  ⟨by decide, Reachable_produceFrames 4 4 _ (Reachable.init _ rfl rfl rfl), by decide,
   (staleness_within_buffer_count 4 (by decide) (produceFrames 4 (initialState 4))
      (Reachable_produceFrames 4 4 _ (Reachable.init _ rfl rfl rfl)) (by decide) true true).2.2⟩

/-! ## Backpressure -/

/-- C4. Backpressure: for `n` in `2..4` and any state whose wrap-around
difference `produceCount - consumeCount` equals `n`, a producer tick attempts no
lock, invokes no render callback and leaves the whole state, hence both
counters, unchanged, under every lock and unlock outcome. In particular with two
buffers, after two successful ticks from the initial state and no consumption,
`produceCount` is 2 and a third tick leaves it at 2 without locking or
rendering. -/
theorem backpressure_full_ring_noop (n : Int) (hn : 2 ≤ n ∧ n ≤ 4) (s : State)
    (hrbc : s.render_buffer_count = n)
    (hfull : ((u32sub s.sharedData.produceCount s.sharedData.consumeCount : Nat) : Int) = n)
    (l u : Bool) :
    ((generateNewFrame l u s).trace = [] ∧
      (generateNewFrame l u s).st = s ∧
      (generateNewFrame l u s).st.sharedData.produceCount = s.sharedData.produceCount ∧
      (generateNewFrame l u s).st.sharedData.consumeCount = s.sharedData.consumeCount) ∧
    ((produceFrames 2 (initialState 2)).sharedData.produceCount = 2 ∧
      (produceFrames 2 (initialState 2)).sharedData.consumeCount = 0 ∧
      (generateNewFrame l u (produceFrames 2 (initialState 2))).trace = [] ∧
      (generateNewFrame l u (produceFrames 2 (initialState 2))).st.sharedData.produceCount = 2) := by
  have hnu : toU32 s.render_buffer_count =
      u32sub s.sharedData.produceCount s.sharedData.consumeCount := by
    rw [hrbc]; unfold toU32; omega
  constructor
  · unfold generateNewFrame
    split
    · exact ⟨rfl, rfl, rfl, rfl⟩
    · rw [if_pos hnu.symm]
      exact ⟨rfl, rfl, rfl, rfl⟩
  · cases l <;> cases u <;> decide

/-- Witness for C4: two buffers, the state after two successful ticks. -/
theorem backpressure_full_ring_noop_witness :
    ((2 : Int) ≤ 2 ∧ (2 : Int) ≤ 4) ∧
    (produceFrames 2 (initialState 2)).render_buffer_count = 2 ∧
    ((u32sub (produceFrames 2 (initialState 2)).sharedData.produceCount
        (produceFrames 2 (initialState 2)).sharedData.consumeCount : Nat) : Int) = 2 ∧
    (generateNewFrame true true (produceFrames 2 (initialState 2))).trace = [] ∧
    (generateNewFrame true true (produceFrames 2 (initialState 2))).st =
      produceFrames 2 (initialState 2) :=
  ⟨by decide, by decide, by decide,
   (backpressure_full_ring_noop 2 (by decide) (produceFrames 2 (initialState 2))
      (by decide) (by decide) true true).1.1,
   (backpressure_full_ring_noop 2 (by decide) (produceFrames 2 (initialState 2))
      (by decide) (by decide) true true).1.2.1⟩

/-! ## Lock failure in the producer -/

/-- C5, the code at the failing input. Four buffers, empty ring, exit flag
unset, and `wglDXLockObjectsNV` fails: the render callback is not invoked, yet
`produceCount` goes from 0 to 1, and the next tick locks slot 1, not slot 0. -/
theorem lock_failure_still_advances_produceCount :
    (generateNewFrame false true (initialState 4)).trace = [Event.lock 0 false] ∧
    (renderLockedSharedTexture false true 0 RenderFunc.renderSceneToTexture).1 = false ∧
    (initialState 4).sharedData.produceCount = 0 ∧
    (generateNewFrame false true (initialState 4)).st.sharedData.produceCount = 1 ∧
    (generateNewFrame true true (generateNewFrame false true (initialState 4)).st).trace =
      [Event.lock 1 true, Event.call RenderFunc.renderSceneToTexture 1, Event.unlock 1 true] := by
  decide

/-! ## Termination check -/

/-- C6, counterexample. With `master_should_terminate` set and one frame
waiting, a redraw does not exit: it locks slot 0, displays it and unlocks. -/
theorem termination_check_counterexample :
    (rendererExitCalled (produceFrames 1 (initialState 4))).sharedData.master_should_terminate = true ∧
    (displayMaster true true (rendererExitCalled (produceFrames 1 (initialState 4)))).exit = none ∧
    (displayMaster true true (rendererExitCalled (produceFrames 1 (initialState 4)))).trace =
      [Event.lock 0 true, Event.call RenderFunc.renderSharedTexture 0, Event.unlock 0 true] := by
  rw [displayMaster_eq true true _ (by decide)]
  decide

/-- C6, amended. The producer tick and the consumer idle poll check the exit
flag meant for their role first: if it is set on entry they exit with code 0
with no lock attempted, no callback invoked and the state unchanged. The
consumer redraw does not consult the flag and never exits. -/
theorem termination_check_tick_and_idle (s : State) :
    (s.sharedData.renderer_should_terminate = true →
      ∀ l u : Bool, (generateNewFrame l u s).exit = some 0 ∧
        (generateNewFrame l u s).trace = [] ∧ (generateNewFrame l u s).st = s) ∧
    (s.sharedData.master_should_terminate = true →
      (idleMaster s).exit = some 0 ∧ (idleMaster s).trace = [] ∧ (idleMaster s).st = s) ∧
    (∀ l u : Bool, (displayMaster l u s).exit = none) := by
  refine ⟨?_, ?_, ?_⟩
  · intro h l u
    unfold generateNewFrame
    rw [if_pos h]
    exact ⟨rfl, rfl, rfl⟩
  · intro h
    unfold idleMaster
    rw [if_pos h]
    exact ⟨rfl, rfl, rfl⟩
  · intro l u
    unfold displayMaster
    split <;> rfl

/-- Witness for C6, amended: both flags set on a state with one frame waiting. -/
theorem termination_check_tick_and_idle_witness :
    (masterExitCalled (rendererExitCalled (produceFrames 1 (initialState 4)))).sharedData.renderer_should_terminate = true ∧
    (masterExitCalled (rendererExitCalled (produceFrames 1 (initialState 4)))).sharedData.master_should_terminate = true ∧
    (generateNewFrame true true
      (masterExitCalled (rendererExitCalled (produceFrames 1 (initialState 4))))).exit = some 0 ∧
    (idleMaster (masterExitCalled (rendererExitCalled (produceFrames 1 (initialState 4))))).exit = some 0 :=
  ⟨by decide, by decide,
   ((termination_check_tick_and_idle
      (masterExitCalled (rendererExitCalled (produceFrames 1 (initialState 4))))).1
      (by decide) true true).1,
   ((termination_check_tick_and_idle
      (masterExitCalled (rendererExitCalled (produceFrames 1 (initialState 4))))).2.1
      (by decide)).1⟩

/-! ## The counters -/

theorem generateNewFrame_consumeCount (l u : Bool) (s : State) :
    (generateNewFrame l u s).st.sharedData.consumeCount = s.sharedData.consumeCount := by
  unfold generateNewFrame
  split
  · rfl
  · split <;> rfl

theorem idleMaster_sharedData (s : State) : (idleMaster s).st.sharedData = s.sharedData := by
  unfold idleMaster
  split
  · rfl
  · split <;> rfl

theorem displayMaster_produceCount (l u : Bool) (s : State) :
    (displayMaster l u s).st.sharedData.produceCount = s.sharedData.produceCount := by
  unfold displayMaster
  split
  · rfl
  · exact skipBacklog_produceCount _ _

/-- C8. For every state with 32-bit counters and every operation of either
role (producer tick, idle poll, redraw with the producer quiescent), the
`consumeCount` afterwards is the one before plus `k` modulo `2^32`, for some
`k` between 0 and the wrap-around difference `produceCount - consumeCount` at
entry. -/
theorem consumeCount_forward_bounded (s : State) (hwf : s.sharedData.WF) (op : Op) :
    ∃ k : Nat, k ≤ u32sub s.sharedData.produceCount s.sharedData.consumeCount ∧
      (op.run s).st.sharedData.consumeCount = (s.sharedData.consumeCount + k) % 4294967296 := by
  obtain ⟨_, hc⟩ := hwf
  cases op with
  | producerTick l u =>
    refine ⟨0, Nat.zero_le _, ?_⟩
    simp only [Op.run, generateNewFrame_consumeCount]
    omega
  | idlePoll =>
    refine ⟨0, Nat.zero_le _, ?_⟩
    simp only [Op.run, idleMaster_sharedData]
    omega
  | redraw l u =>
    simp only [Op.run]
    rw [displayMaster_eq l u s hc]
    split
    · refine ⟨0, Nat.zero_le _, ?_⟩
      show s.sharedData.consumeCount = _
      omega
    · split
      · exact ⟨u32sub s.sharedData.produceCount s.sharedData.consumeCount - 1, by omega, rfl⟩
      · refine ⟨0, Nat.zero_le _, ?_⟩
        show s.sharedData.consumeCount = _
        omega

/-- Witness for C8: a redraw with three frames waiting moves `consumeCount` by 2. -/
theorem consumeCount_forward_bounded_witness :
    (produceFrames 3 (initialState 4)).sharedData.WF ∧
    ∃ k : Nat, k ≤ u32sub (produceFrames 3 (initialState 4)).sharedData.produceCount
        (produceFrames 3 (initialState 4)).sharedData.consumeCount ∧
      ((Op.redraw true true).run (produceFrames 3 (initialState 4))).st.sharedData.consumeCount =
        ((produceFrames 3 (initialState 4)).sharedData.consumeCount + k) % 4294967296 :=
  ⟨by decide,
   consumeCount_forward_bounded (produceFrames 3 (initialState 4)) (by decide) (Op.redraw true true)⟩

/-- C9. Single-writer counters: under every lock and unlock outcome a producer
tick leaves `consumeCount` unchanged, and the consumer's idle poll and redraw
leave `produceCount` unchanged. -/
theorem single_writer_counters (s : State) (l u : Bool) :
    (generateNewFrame l u s).st.sharedData.consumeCount = s.sharedData.consumeCount ∧
    (idleMaster s).st.sharedData.produceCount = s.sharedData.produceCount ∧
    (displayMaster l u s).st.sharedData.produceCount = s.sharedData.produceCount := by
  refine ⟨generateNewFrame_consumeCount l u s, ?_, displayMaster_produceCount l u s⟩
  rw [idleMaster_sharedData]


/-! ## The buffer-count option -/

theorem optionStep_exit_code (atoi atoll : String → Int) (a : String) (next : Option String)
    (g : Globals) (c : Int) (h : optionStep atoi atoll a next g = OptionStep.exit c) : c = 1 := by
  unfold optionStep at h
  repeat' (split at h)
  all_goals first | (cases h; rfl) | cases h

theorem parseArgs_exit_code (atoi atoll : String → Int) (args : List String) (g : Globals) :
    ∀ c, parseArgs atoi atoll args g = Parsed.exit c → c = 1 := by
  induction args, g using parseArgs.induct atoi atoll with
  | case1 g => intro c h; simp [parseArgs] at h
  | case2 a g c1 hs =>
    intro c h
    simp only [parseArgs, hs, Parsed.exit.injEq] at h
    rw [← h]
    exact optionStep_exit_code atoi atoll a none g c1 hs
  | case3 a g g2 x hs => intro c h; simp [parseArgs, hs] at h
  | case4 a g g2 hs => intro c h; simp [parseArgs, hs] at h
  | case5 a g g2 hs => intro c h; simp [parseArgs, hs] at h
  | case6 a v rest g c1 hs =>
    intro c h
    simp only [parseArgs, hs, Parsed.exit.injEq] at h
    rw [← h]
    exact optionStep_exit_code atoi atoll a (some v) g c1 hs
  | case7 a v rest g g2 x hs => intro c h; simp [parseArgs, hs] at h
  | case8 a v rest g g2 hs ih =>
    intro c h
    simp only [parseArgs, hs] at h
    exact ih c h
  | case9 a v rest g g2 hs ih =>
    intro c h
    simp only [parseArgs, hs] at h
    exact ih c h

theorem createSharedTextures_exit_code (p : Platform) (n c : Int)
    (h : createSharedTextures p n = some c) : c = 1 := by
  unfold createSharedTextures at h
  obtain ⟨i, _, hi⟩ := List.exists_of_findSome?_eq_some h
  unfold createTexture2D at hi
  split at hi
  · cases hi; rfl
  · cases hi

theorem spawnRendererProcess_exit_code (p : Platform) (g : Globals) (handles : List Nat)
    (mapped : SharedData) (c : Int)
    (h : (spawnRendererProcess p g handles mapped).exit = some c) : c = 1 := by
  by_cases hc : p.CreateProcessA = false
  · simp [spawnRendererProcess, hc] at h
    exact h.symm
  · simp [spawnRendererProcess, hc] at h

theorem exitAfterAtexit_eq_exit (sd : Option SharedData) (c c1 : Int)
    (h : exitAfterAtexit sd c = Startup.exit c1) : c1 = c ∧ sd ≠ none := by
  cases sd with
  | none => cases h
  | some d => cases h; exact ⟨rfl, by simp⟩

theorem exitAfterAtexit_eq_crash (sd : Option SharedData) (c : Int)
    (h : exitAfterAtexit sd c = Startup.crash) : sd = none := by
  cases sd with
  | none => rfl
  | some d => cases h

theorem sharedDataAtRegistration_ne_none (p : Platform) (g : Globals) (mapped : SharedData)
    (h : sharedDataAtRegistration p g mapped ≠ none) : g.i_am_master = false := by
  unfold sharedDataAtRegistration at h
  split at h
  · exact absurd rfl h
  · rename_i hm
    simpa using hm

theorem sharedDataAtRegistration_eq_none (p : Platform) (g : Globals) (mapped : SharedData)
    (h : sharedDataAtRegistration p g mapped = none) : g.i_am_master = true := by
  unfold sharedDataAtRegistration at h
  split at h
  · rename_i hm; exact hm
  · cases h

theorem LoadDirect3D_exit_code (p : Platform) (c : Int) (h : LoadDirect3D p = some c) :
    c = 0 ∧ (p.LoadLibraryA_d3d11 = false ∨ p.GetProcAddress_D3D11CreateDevice = false) := by
  unfold LoadDirect3D at h
  split at h
  · rename_i h1
    cases h
    exact ⟨rfl, Or.inl h1⟩
  · split at h
    · rename_i h2
      cases h
      exact ⟨rfl, Or.inr h2⟩
    · cases h

theorem InteropWithDirect3D_exit_code (p : Platform) (c : Int)
    (h : InteropWithDirect3D p = some c) : c = 1 := by
  unfold InteropWithDirect3D at h
  split at h
  · cases h; rfl
  · cases h

/-- Start-up leaves with an exit code only of 0 or 1, and with code 0 only from
`LoadDirect3D` in the renderer. -/
theorem main_exit_code (atoi atoll : String → Int) (p : Platform) (args : List String)
    (mapped : SharedData) (c : Int) (h : main atoi atoll p args mapped = Startup.exit c) :
    c = 1 ∨
      (c = 0 ∧ (p.LoadLibraryA_d3d11 = false ∨ p.GetProcAddress_D3D11CreateDevice = false) ∧
        ∃ g x, parseArgs atoi atoll args Globals.initial = Parsed.run g x ∧
          g.i_am_master = false) := by
  unfold main at h
  split at h
  · rename_i c1 hp
    cases h
    exact Or.inl (parseArgs_exit_code atoi atoll args _ c hp)
  · rename_i g0 h0 hp
    split at h
    · cases h
    split at h
    · cases h; exact Or.inl rfl
    split at h
    · cases h; exact Or.inl rfl
    split at h
    · cases h; exact Or.inl rfl
    split at h
    · rename_i c1 hl
      obtain ⟨hc, hsd⟩ := exitAfterAtexit_eq_exit _ _ _ h
      obtain ⟨h0c, hfail⟩ := LoadDirect3D_exit_code p c1 hl
      right
      exact ⟨by rw [hc, h0c], hfail, g0, h0, hp,
        sharedDataAtRegistration_ne_none p g0 mapped hsd⟩
    split at h
    · rename_i c1 hi
      obtain ⟨hc, _⟩ := exitAfterAtexit_eq_exit _ _ _ h
      left
      rw [hc]
      exact InteropWithDirect3D_exit_code p c1 hi
    split at h
    · unfold initMaster at h
      split at h
      · cases h
      · simp only at h
        split at h
        · rename_i c1 hsp
          obtain ⟨hc, _⟩ := exitAfterAtexit_eq_exit _ _ _ h
          left
          rw [hc]
          exact spawnRendererProcess_exit_code p _ _ mapped c1 hsp
        · cases h
    · cases h

/-- Start-up dies by access violation only in the master: an `exit` after the
`atexit` hook is registered and before `spawnRendererProcess` has mapped
`sharedData`, that is from `LoadDirect3D`, `InteropWithDirect3D` or
`createTexture2D`. -/
theorem main_crash_in_master (atoi atoll : String → Int) (p : Platform) (args : List String)
    (mapped : SharedData) (h : main atoi atoll p args mapped = Startup.crash) :
    (∃ g x, parseArgs atoi atoll args Globals.initial = Parsed.run g x ∧
        g.i_am_master = true) ∧
      (p.LoadLibraryA_d3d11 = false ∨ p.GetProcAddress_D3D11CreateDevice = false ∨
        p.wglDXOpenDeviceNV = false ∨ ∃ i, p.wglDXRegisterObjectNV i = false) := by
  unfold main at h
  split at h
  · cases h
  · rename_i g0 h0 hp
    split at h
    · cases h
    split at h
    · cases h
    split at h
    · cases h
    split at h
    · cases h
    split at h
    · rename_i c1 hl
      have hm := sharedDataAtRegistration_eq_none p g0 mapped (exitAfterAtexit_eq_crash _ _ h)
      rcases (LoadDirect3D_exit_code p c1 hl).2 with h1 | h1
      · exact ⟨⟨g0, h0, hp, hm⟩, Or.inl h1⟩
      · exact ⟨⟨g0, h0, hp, hm⟩, Or.inr (Or.inl h1)⟩
    split at h
    · rename_i c1 hi
      have hm := sharedDataAtRegistration_eq_none p g0 mapped (exitAfterAtexit_eq_crash _ _ h)
      refine ⟨⟨g0, h0, hp, hm⟩, Or.inr (Or.inr (Or.inl ?_))⟩
      unfold InteropWithDirect3D at hi
      split at hi
      · rename_i hw; exact hw
      · cases hi
    split at h
    · rename_i hm
      refine ⟨⟨g0, h0, hp, hm⟩, Or.inr (Or.inr (Or.inr ?_))⟩
      unfold initMaster at h
      split at h
      · rename_i c1 hcs
        unfold createSharedTextures at hcs
        obtain ⟨i, _, hi⟩ := List.exists_of_findSome?_eq_some hcs
        unfold createTexture2D at hi
        split at hi
        · rename_i hr; exact ⟨i, hr⟩
        · cases hi
      · simp only at h
        split at h
        · cases h
        · cases h
    · cases h

/-- C7, the code at the failing inputs. In the renderer, started as
`-renderer 1` on the control block the master wrote, a `d3d11.dll` that cannot
be loaded, and a missing `D3D11CreateDevice` entry point, each end the process
with exit code 0. In the master, whose `atexit` hook is registered while
`sharedData` is still `NULL`, the `exit` calls of `LoadDirect3D`,
`InteropWithDirect3D` and `createTexture2D` end in an access violation instead
of an exit code. The failures before the hook is registered (GLEW
initialisation, either extension missing), `wglDXOpenDeviceNV` in the renderer
and `CreateProcessA` in the master end the process with exit code 1. -/
theorem LoadDirect3D_failure_exits_with_zero :
    main (fun _ => 0) (fun _ => 1) { Platform.allOk with LoadLibraryA_d3d11 := false }
      ["-renderer", "1"]
      (spawnRendererProcess Platform.allOk Globals.initial (sharetex_handles Platform.allOk 4)
        zeroPage).sharedData = Startup.exit 0 ∧
    main (fun _ => 0) (fun _ => 1)
      { Platform.allOk with GetProcAddress_D3D11CreateDevice := false } ["-renderer", "1"]
      (spawnRendererProcess Platform.allOk Globals.initial (sharetex_handles Platform.allOk 4)
        zeroPage).sharedData = Startup.exit 0 ∧
    main (fun _ => 0) (fun _ => 1) { Platform.allOk with wglDXOpenDeviceNV := false }
      ["-renderer", "1"]
      (spawnRendererProcess Platform.allOk Globals.initial (sharetex_handles Platform.allOk 4)
        zeroPage).sharedData = Startup.exit 1 ∧
    main (fun _ => 0) (fun _ => 1) Platform.allOk ["-renderer", "1"]
      (spawnRendererProcess Platform.allOk Globals.initial (sharetex_handles Platform.allOk 4)
        zeroPage).sharedData =
      Startup.renderer { Globals.initial with i_am_renderer := true, i_am_master := false }
        (some 1) ∧
    main (fun _ => 0) (fun _ => 1) { Platform.allOk with LoadLibraryA_d3d11 := false } []
      zeroPage = Startup.crash ∧
    main (fun _ => 0) (fun _ => 1)
      { Platform.allOk with GetProcAddress_D3D11CreateDevice := false } [] zeroPage =
      Startup.crash ∧
    main (fun _ => 0) (fun _ => 1) { Platform.allOk with wglDXOpenDeviceNV := false } []
      zeroPage = Startup.crash ∧
    main (fun _ => 0) (fun _ => 1)
      { Platform.allOk with wglDXRegisterObjectNV := fun i => decide (i ≠ 3) } [] zeroPage =
      Startup.crash ∧
    main (fun _ => 0) (fun _ => 1) { Platform.allOk with glewInit := false } [] zeroPage =
      Startup.exit 1 ∧
    main (fun _ => 0) (fun _ => 1)
      { Platform.allOk with WGLExtensionSupported_WGL_NV_DX_interop2 := false } [] zeroPage =
      Startup.exit 1 ∧
    main (fun _ => 0) (fun _ => 1)
      { Platform.allOk with glutExtensionSupported_GL_EXT_direct_state_access := false } []
      zeroPage = Startup.exit 1 ∧
    main (fun _ => 0) (fun _ => 1) { Platform.allOk with CreateProcessA := false } []
      zeroPage = Startup.exit 1 := by
  decide

/-! ## Handles in the control block -/

theorem duplicateSlot_length (D : Nat → Option Nat) (hs : List Nat) (i : Nat) :
    (duplicateSlot D hs i).length = hs.length := by
  unfold duplicateSlot
  split <;> simp

theorem duplicateSlot_getD_ne (D : Nat → Option Nat) (hs : List Nat) (i j : Nat) (h : j ≠ i) :
    (duplicateSlot D hs i).getD j 0 = hs.getD j 0 := by
  unfold duplicateSlot
  have h1 : i ≠ j := fun e => h e.symm
  split <;> simp [List.getElem?_set_ne h1]

theorem duplicateSlot_getD_self (D : Nat → Option Nat) (hs : List Nat) (i : Nat)
    (h : i < hs.length) :
    (duplicateSlot D hs i).getD i 0 = (D (hs.getD i 0)).getD 0 := by
  unfold duplicateSlot
  split
  · rename_i x hx
    simp [List.getElem?_set, h, hx] at *
    simp [hx]
  · rename_i hx
    simp [List.getElem?_set, h, hx] at *
    simp [hx]

/-- What the handle loop leaves in the array when no `assert` fails: at each
index it visited the duplicate of the entry read there, elsewhere the old entry. -/
theorem duplicateHandles_spec (D : Nat → Option Nat) :
    ∀ (is hs : List Nat), is.Nodup → (∀ i ∈ is, i < hs.length) →
      (duplicateHandles D is hs).2 = true →
      (duplicateHandles D is hs).1.length = hs.length ∧
      (∀ i ∈ is, (duplicateHandles D is hs).1.getD i 0 = (D (hs.getD i 0)).getD 0 ∧
        (D (hs.getD i 0)).getD 0 ≠ 0) ∧
      (∀ j, j ∉ is → (duplicateHandles D is hs).1.getD j 0 = hs.getD j 0) := by
  intro is
  induction is with
  | nil =>
    intro hs _ _ _
    exact ⟨rfl, fun i hi => absurd hi (List.not_mem_nil i), fun j _ => rfl⟩
  | cons i rest ih =>
    intro hs hnd hlt hok
    have hi : i < hs.length := hlt i (List.mem_cons_self _ _)
    have hnd2 := List.nodup_cons.mp hnd
    have hself := duplicateSlot_getD_self D hs i hi
    by_cases hz : (duplicateSlot D hs i).getD i 0 = 0
    · rw [duplicateHandles, if_pos hz] at hok
      exact absurd hok (by simp)
    · rw [duplicateHandles, if_neg hz] at hok ⊢
      have hlt2 : ∀ k ∈ rest, k < (duplicateSlot D hs i).length := by
        intro k hk
        rw [duplicateSlot_length]
        exact hlt k (List.mem_cons_of_mem _ hk)
      obtain ⟨h1, h2, h3⟩ := ih (duplicateSlot D hs i) hnd2.2 hlt2 hok
      refine ⟨by rw [h1, duplicateSlot_length], ?_, ?_⟩
      · intro k hk
        rcases List.mem_cons.mp hk with hk | hk
        · subst hk
          rw [h3 k hnd2.1, hself]
          exact ⟨rfl, by rw [← hself]; exact hz⟩
        · have hne : k ≠ i := fun e => hnd2.1 (e ▸ hk)
          have := h2 k hk
          rw [duplicateSlot_getD_ne D hs i k hne] at this
          exact this
      · intro j hj
        have hne : j ≠ i := fun e => hj (e ▸ List.mem_cons_self _ _)
        have hjr : j ∉ rest := fun e => hj (List.mem_cons_of_mem _ e)
        rw [h3 j hjr, duplicateSlot_getD_ne D hs i j hne]

/-- C11, counterexample. The master, with four buffers on a platform that hands
out the handles 1, 2, 3, 4, writes them to `sharedHandle`; the attach step of a
renderer whose `DuplicateHandle` returns `h + 100` for `h` leaves 101, 102, 103,
104 there, with every `assert` holding. -/
theorem attach_overwrites_handles_counterexample :
    (spawnRendererProcess Platform.allOk Globals.initial
        (sharetex_handles Platform.allOk 4) zeroPage).sharedData.sharedHandle = [1, 2, 3, 4] ∧
    (startRendererProcess (fun h => some (h + 100))
        (spawnRendererProcess Platform.allOk Globals.initial
          (sharetex_handles Platform.allOk 4) zeroPage).sharedData).assert_ok = true ∧
    (startRendererProcess (fun h => some (h + 100))
        (spawnRendererProcess Platform.allOk Globals.initial
          (sharetex_handles Platform.allOk 4) zeroPage).sharedData).sharedData.sharedHandle =
      [101, 102, 103, 104] ∧
    ¬ ((startRendererProcess (fun h => some (h + 100))
        (spawnRendererProcess Platform.allOk Globals.initial
          (sharetex_handles Platform.allOk 4) zeroPage).sharedData).sharedData.sharedHandle =
      (spawnRendererProcess Platform.allOk Globals.initial
        (sharetex_handles Platform.allOk 4) zeroPage).sharedData.sharedHandle) := by
  decide

/-- C11, amended. For every control block with `MAX_RENDER_BUFFER` handle entries
and a buffer count of at most that, an attach step of the producer whose
`assert`s hold reads each entry `sharedHandle[i]`, `i < render_buffer_count`, and
overwrites it with the non-zero handle `DuplicateHandle` returns for it; the
entries from `render_buffer_count` on, and every other field of the control
block, are as the consumer wrote them. -/
theorem attach_rewrites_handles_in_use (D : Nat → Option Nat) (d : SharedData)
    (hlen : d.sharedHandle.length = MAX_RENDER_BUFFER)
    (hn : d.render_buffer_count ≤ MAX_RENDER_BUFFER)
    (hok : (startRendererProcess D d).assert_ok = true) :
    (∀ i, i < d.render_buffer_count →
      (startRendererProcess D d).sharedData.sharedHandle.getD i 0 =
          (D (d.sharedHandle.getD i 0)).getD 0 ∧
        (D (d.sharedHandle.getD i 0)).getD 0 ≠ 0) ∧
    (∀ j, d.render_buffer_count ≤ j →
      (startRendererProcess D d).sharedData.sharedHandle.getD j 0 = d.sharedHandle.getD j 0) ∧
    (startRendererProcess D d).sharedData.sharedHandle.length = MAX_RENDER_BUFFER ∧
    { (startRendererProcess D d).sharedData with sharedHandle := d.sharedHandle } = d := by
  have hlt : ∀ i ∈ List.range d.render_buffer_count, i < d.sharedHandle.length := by
    intro i hi
    rw [List.mem_range] at hi
    omega
  obtain ⟨h1, h2, h3⟩ := duplicateHandles_spec D (List.range d.render_buffer_count)
    d.sharedHandle (List.nodup_range _) hlt hok
  refine ⟨?_, ?_, ?_, rfl⟩
  · intro i hi
    exact h2 i (List.mem_range.mpr hi)
  · intro j hj
    exact h3 j (fun e => by rw [List.mem_range] at e; omega)
  · show (duplicateHandles D (List.range d.render_buffer_count) d.sharedHandle).1.length = _
    rw [h1, hlen]

/-- Witness for C11, amended: the control block the master wrote, four buffers. -/
theorem attach_rewrites_handles_in_use_witness :
    (spawnRendererProcess Platform.allOk Globals.initial
        (sharetex_handles Platform.allOk 4) zeroPage).sharedData.sharedHandle.length =
      MAX_RENDER_BUFFER ∧
    (spawnRendererProcess Platform.allOk Globals.initial
        (sharetex_handles Platform.allOk 4) zeroPage).sharedData.render_buffer_count ≤
      MAX_RENDER_BUFFER ∧
    (startRendererProcess (fun h => some (h + 100))
        (spawnRendererProcess Platform.allOk Globals.initial
          (sharetex_handles Platform.allOk 4) zeroPage).sharedData).assert_ok = true ∧
    (startRendererProcess (fun h => some (h + 100))
        (spawnRendererProcess Platform.allOk Globals.initial
          (sharetex_handles Platform.allOk 4) zeroPage).sharedData).sharedData.sharedHandle.length =
      MAX_RENDER_BUFFER :=
  ⟨by decide, by decide, by decide,
   (attach_rewrites_handles_in_use (fun h => some (h + 100))
      (spawnRendererProcess Platform.allOk Globals.initial
        (sharetex_handles Platform.allOk 4) zeroPage).sharedData
      (by decide) (by decide) (by decide)).2.2.1⟩

/-! ## The job object -/

/-- C12, counterexample. On a platform where `CreateJobObject` fails and every
other call succeeds, `spawnRendererProcess` reports the failure, then calls
`CreateProcessA`, which launches the renderer, and returns without `exit`. -/
theorem job_failure_counterexample :
    (spawnRendererProcess { Platform.allOk with CreateJobObject := false } Globals.initial
        (sharetex_handles Platform.allOk 4) zeroPage).trace =
      [SpawnEvent.createJobObject false, SpawnEvent.report "CreateJobObject failed!",
       SpawnEvent.createProcess true, SpawnEvent.assignProcessToJobObject true,
       SpawnEvent.report "spawned renderer..."] ∧
    (spawnRendererProcess { Platform.allOk with CreateJobObject := false } Globals.initial
        (sharetex_handles Platform.allOk 4) zeroPage).exit = none ∧
    main (fun _ => 0) (fun _ => 0) { Platform.allOk with CreateJobObject := false } [] zeroPage =
      Startup.master Globals.initial
        (spawnRendererProcess { Platform.allOk with CreateJobObject := false } Globals.initial
          (sharetex_handles Platform.allOk 4) zeroPage).sharedData := by
  decide

/-- C12, amended. In `spawnRendererProcess`, when the job object cannot be
created, or cannot be configured with kill-on-close, the failure is reported
with a diagnostic and the function goes on: it calls `CreateProcessA` to launch
the peer, and the process exits, with code 1, exactly when that call fails. -/
theorem job_failure_reported_not_fatal (p : Platform) (g : Globals) (handles : List Nat)
    (mapped : SharedData)
    (hjob : p.CreateJobObject = false ∨ p.SetInformationJobObject = false) :
    (SpawnEvent.report "CreateJobObject failed!" ∈
        (spawnRendererProcess p g handles mapped).trace ∨
      SpawnEvent.report "SetInformationJobObject failed!" ∈
        (spawnRendererProcess p g handles mapped).trace) ∧
    SpawnEvent.createProcess p.CreateProcessA ∈ (spawnRendererProcess p g handles mapped).trace ∧
    (spawnRendererProcess p g handles mapped).exit =
      (if p.CreateProcessA = false then some 1 else none) := by
  unfold spawnRendererProcess
  cases hc : p.CreateJobObject <;> cases hs : p.SetInformationJobObject <;>
    cases hp : p.CreateProcessA <;> cases ha : p.AssignProcessToJobObject <;>
    simp_all

/-- Witness for C12, amended: `CreateJobObject` fails, everything else succeeds. -/
theorem job_failure_reported_not_fatal_witness :
    (Platform.CreateJobObject { Platform.allOk with CreateJobObject := false } = false ∨
      Platform.SetInformationJobObject { Platform.allOk with CreateJobObject := false } = false) ∧
    (spawnRendererProcess { Platform.allOk with CreateJobObject := false } Globals.initial
        (sharetex_handles Platform.allOk 4) zeroPage).exit =
      (if Platform.CreateProcessA { Platform.allOk with CreateJobObject := false } = false
        then some 1 else none) :=
  ⟨Or.inl rfl,
   (job_failure_reported_not_fatal { Platform.allOk with CreateJobObject := false }
      Globals.initial (sharetex_handles Platform.allOk 4) zeroPage (Or.inl rfl)).2.2⟩

/-! ## A successful producer tick -/

/-- C13. For `n` in `2..4` and a state with `renderer_should_terminate` unset
and `produceCount - consumeCount` different from `n`, a producer tick whose lock
and unlock both succeed locks slot `produceCount mod n` (the `produceCount` at
entry), invokes the render callback on it exactly once, unlocks it, does not
exit, and leaves `produceCount` one higher modulo `2^32`. -/
theorem successful_producer_tick (n : Int) (hn : 2 ≤ n ∧ n ≤ 4) (s : State)
    (hrbc : s.render_buffer_count = n)
    (hf : s.sharedData.renderer_should_terminate = false)
    (hne : ((u32sub s.sharedData.produceCount s.sharedData.consumeCount : Nat) : Int) ≠ n) :
    (generateNewFrame true true s).trace =
      [Event.lock (s.sharedData.produceCount % n.toNat) true,
       Event.call RenderFunc.renderSceneToTexture (s.sharedData.produceCount % n.toNat),
       Event.unlock (s.sharedData.produceCount % n.toNat) true] ∧
    calledSlots (generateNewFrame true true s).trace = [s.sharedData.produceCount % n.toNat] ∧
    (generateNewFrame true true s).st.sharedData.produceCount =
      (s.sharedData.produceCount + 1) % 4294967296 ∧
    (generateNewFrame true true s).exit = none := by
  have hnu : toU32 s.render_buffer_count = n.toNat := by
    rw [hrbc]; exact toU32_of_nonneg n (by omega) (by omega)
  have hd : ¬ (u32sub s.sharedData.produceCount s.sharedData.consumeCount =
      toU32 s.render_buffer_count) := by
    rw [hnu]; omega
  unfold generateNewFrame
  rw [if_neg (by rw [hf]; decide), if_neg hd]
  simp only [hnu, renderLockedSharedTexture, if_true, calledSlots, InterlockedIncrement]
  exact ⟨trivial, trivial, trivial, trivial⟩

/-- Witness for C13: the first tick on an empty ring of four buffers. -/
theorem successful_producer_tick_witness :
    ((2 : Int) ≤ 4 ∧ (4 : Int) ≤ 4) ∧
    (generateNewFrame true true (initialState 4)).st.sharedData.produceCount =
      ((initialState 4).sharedData.produceCount + 1) % 4294967296 :=
  ⟨by decide,
   (successful_producer_tick 4 (by decide) (initialState 4) rfl rfl (by decide)).2.2.1⟩

/-! ## The backlog loop of the redraw -/

theorem lockedSlots_append (a b : List Event) :
    lockedSlots (a ++ b) = lockedSlots a ++ lockedSlots b := by
  induction a with
  | nil => rfl
  | cons e rest ih => cases e <;> simp [lockedSlots, ih]

theorem calledSlots_append (a b : List Event) :
    calledSlots (a ++ b) = calledSlots a ++ calledSlots b := by
  induction a with
  | nil => rfl
  | cons e rest ih => cases e <;> simp [calledSlots, ih]

theorem skipTrace_no_lock_no_call (n : Int) (c k : Nat) :
    lockedSlots (skipTrace n c k) = [] ∧ calledSlots (skipTrace n c k) = [] := by
  unfold skipTrace
  induction (List.range k) with
  | nil => exact ⟨rfl, rfl⟩
  | cons i rest ih => simpa [lockedSlots, calledSlots] using ih

/-- C14, counterexample. Four buffers, three frames waiting, and the lock of the
redraw is not acquired: the redraw calls the lock on slot 0, displays no slot,
and its backlog loop still moves `consumeCount` from 0 to 2. -/
theorem redraw_lock_failure_counterexample :
    1 ≤ u32sub (produceFrames 3 (initialState 4)).sharedData.produceCount
      (produceFrames 3 (initialState 4)).sharedData.consumeCount ∧
    (displayMaster false true (produceFrames 3 (initialState 4))).trace =
      [Event.lock 0 false, Event.skip 0, Event.skip 1] ∧
    calledSlots (displayMaster false true (produceFrames 3 (initialState 4))).trace = [] ∧
    (displayMaster false true (produceFrames 3 (initialState 4))).st.sharedData.consumeCount = 2 := by
  rw [displayMaster_eq false true _ (by decide)]
  decide

/-- C14, amended. For `n` in `2..4` and a state with 32-bit counters and
`d = produceCount - consumeCount ≥ 1`, a redraw with the producer quiescent
calls the lock on one slot only, `consumeCount mod n` for the `consumeCount` at
entry, and displays exactly that slot when the lock is acquired and no slot
when it is not; in both cases its backlog loop runs `d - 1` times, logging a
skip each time without locking or displaying, and ends; on return
`produceCount` is unchanged, `consumeCount` has advanced by `d - 1` modulo
`2^32` and `produceCount - consumeCount = 1`. -/
theorem backlog_loop_leaves_one (n : Int) (hn : 2 ≤ n ∧ n ≤ 4) (s : State)
    (hrbc : s.render_buffer_count = n) (hwf : s.sharedData.WF)
    (hd : 1 ≤ u32sub s.sharedData.produceCount s.sharedData.consumeCount) (l u : Bool) :
    (displayMaster l u s).trace =
      (renderLockedSharedTexture l u (s.sharedData.consumeCount % n.toNat)
        RenderFunc.renderSharedTexture).2 ++
      skipTrace n s.sharedData.consumeCount
        (u32sub s.sharedData.produceCount s.sharedData.consumeCount - 1) ∧
    lockedSlots (displayMaster l u s).trace = [s.sharedData.consumeCount % n.toNat] ∧
    calledSlots (displayMaster l u s).trace =
      (if l then [s.sharedData.consumeCount % n.toNat] else []) ∧
    (skipBacklog n s.sharedData).2.length =
      u32sub s.sharedData.produceCount s.sharedData.consumeCount - 1 ∧
    (displayMaster l u s).st.sharedData.produceCount = s.sharedData.produceCount ∧
    (displayMaster l u s).st.sharedData.consumeCount =
      (s.sharedData.consumeCount +
        (u32sub s.sharedData.produceCount s.sharedData.consumeCount - 1)) % 4294967296 ∧
    u32sub (displayMaster l u s).st.sharedData.produceCount
      (displayMaster l u s).st.sharedData.consumeCount = 1 := by
  obtain ⟨hp, hc⟩ := hwf
  have hnu : toU32 s.render_buffer_count = n.toNat := by
    rw [hrbc]; exact toU32_of_nonneg n (by omega) (by omega)
  have h0 : ¬ (u32sub s.sharedData.produceCount s.sharedData.consumeCount < 1) := by omega
  have htr : (displayMaster l u s).trace =
      (renderLockedSharedTexture l u (s.sharedData.consumeCount % n.toNat)
        RenderFunc.renderSharedTexture).2 ++
      skipTrace n s.sharedData.consumeCount
        (u32sub s.sharedData.produceCount s.sharedData.consumeCount - 1) := by
    rw [displayMaster_eq l u s hc, if_neg h0, hnu, hrbc]
  have hcc : (displayMaster l u s).st.sharedData.consumeCount =
      (s.sharedData.consumeCount +
        (u32sub s.sharedData.produceCount s.sharedData.consumeCount - 1)) % 4294967296 := by
    rw [displayMaster_eq l u s hc, if_neg h0]
    show (if 1 < u32sub s.sharedData.produceCount s.sharedData.consumeCount then _ else _) = _
    split
    · rfl
    · omega
  have hpc := displayMaster_produceCount l u s
  refine ⟨htr, ?_, ?_, ?_, hpc, hcc, ?_⟩
  · rw [htr, lockedSlots_append, (skipTrace_no_lock_no_call _ _ _).1]
    cases l <;> cases u <;> rfl
  · rw [htr, calledSlots_append, (skipTrace_no_lock_no_call _ _ _).2]
    cases l <;> cases u <;> rfl
  · rw [skipBacklog_snd n _ hc]
    simp [skipTrace]
  · rw [hpc, hcc]
    simp only [u32sub] at hd ⊢
    omega

/-- Witness for C14: three frames waiting in a ring of four. -/
theorem backlog_loop_leaves_one_witness :
    ((2 : Int) ≤ 4 ∧ (4 : Int) ≤ 4) ∧
    (produceFrames 3 (initialState 4)).sharedData.WF ∧
    1 ≤ u32sub (produceFrames 3 (initialState 4)).sharedData.produceCount
      (produceFrames 3 (initialState 4)).sharedData.consumeCount ∧
    u32sub (displayMaster true true (produceFrames 3 (initialState 4))).st.sharedData.produceCount
      (displayMaster true true (produceFrames 3 (initialState 4))).st.sharedData.consumeCount = 1 :=
  ⟨by decide, by decide, by decide,
   (backlog_loop_leaves_one 4 (by decide) (produceFrames 3 (initialState 4)) (by decide)
      (by decide) (by decide) true true).2.2.2.2.2.2⟩

/-! ## Locks held when a callback returns -/

/-- A trace of `skipping index` log lines only. -/
theorem skips_hold_nothing (tail : List Event) (h : ∀ e ∈ tail, ∃ k, e = Event.skip k)
    (slot : Nat) :
    heldAtReturn tail = [] ∧ lockedWithoutUnlockCall tail = [] ∧
      tail.any (Event.isUnlockOf slot) = false ∧
      tail.any (Event.isUnlockCallOf slot) = false := by
  induction tail with
  | nil => exact ⟨rfl, rfl, rfl, rfl⟩
  | cons e rest ih =>
    obtain ⟨k, hk⟩ := h e (List.mem_cons_self _ _)
    obtain ⟨h1, h2, h3, h4⟩ := ih (fun x hx => h x (List.mem_cons_of_mem _ hx))
    subst hk
    refine ⟨?_, ?_, ?_, ?_⟩
    · simpa [heldAtReturn] using h1
    · simpa [lockedWithoutUnlockCall] using h2
    · simpa [Event.isUnlockOf] using h3
    · simpa [Event.isUnlockCallOf] using h4

theorem skipBacklog_snd_skips (n : Int) (d : SharedData) :
    ∀ e ∈ (skipBacklog n d).2, ∃ k, e = Event.skip k := by
  induction d using skipBacklog.induct n with
  | case1 d h ih =>
    rw [skipBacklog, if_pos h]
    intro e he
    rcases List.mem_cons.mp he with he | he
    · exact ⟨_, he⟩
    · exact ih e he
  | case2 d h =>
    rw [skipBacklog, if_neg h]
    intro e he
    exact absurd he (List.not_mem_nil e)

/-- The locks held after lock / callback / unlock followed by log lines: the
slot, when the lock was acquired and the unlock failed, and none otherwise; and
an unlock call follows every acquired lock. -/
theorem renderLocked_then_skips (l u : Bool) (slot : Nat) (f : RenderFunc) (tail : List Event)
    (h : ∀ e ∈ tail, ∃ k, e = Event.skip k) :
    heldAtReturn ((renderLockedSharedTexture l u slot f).2 ++ tail) =
        (if l = true ∧ u = false then [slot] else []) ∧
      lockedWithoutUnlockCall ((renderLockedSharedTexture l u slot f).2 ++ tail) = [] := by
  obtain ⟨h1, h2, h3, h4⟩ := skips_hold_nothing tail h slot
  cases l <;> cases u <;>
    simp [renderLockedSharedTexture, heldAtReturn, lockedWithoutUnlockCall, Event.isUnlockOf,
      Event.isUnlockCallOf, h1, h2, h3, h4]

theorem generateNewFrame_locks (l u : Bool) (s : State) :
    lockedWithoutUnlockCall (generateNewFrame l u s).trace = [] ∧
      (u = true → heldAtReturn (generateNewFrame l u s).trace = []) ∧
      (s.sharedData.renderer_should_terminate = false →
        u32sub s.sharedData.produceCount s.sharedData.consumeCount ≠
          toU32 s.render_buffer_count →
        heldAtReturn (generateNewFrame l u s).trace =
          (if l = true ∧ u = false then
            [s.sharedData.produceCount % toU32 s.render_buffer_count] else [])) := by
  have hr := renderLocked_then_skips l u
    (s.sharedData.produceCount % toU32 s.render_buffer_count)
    RenderFunc.renderSceneToTexture [] (fun e he => absurd he (List.not_mem_nil e))
  rw [List.append_nil] at hr
  refine ⟨?_, ?_, ?_⟩
  · unfold generateNewFrame
    split
    · rfl
    · split
      · rfl
      · exact hr.2
  · intro hu
    unfold generateNewFrame
    split
    · rfl
    · split
      · rfl
      · show heldAtReturn (renderLockedSharedTexture l u _ _).2 = []
        rw [hr.1, if_neg (by rw [hu]; simp)]
  · intro hf hne
    unfold generateNewFrame
    rw [if_neg (by rw [hf]; decide), if_neg hne]
    exact hr.1

theorem displayMaster_locks (l u : Bool) (s : State) :
    lockedWithoutUnlockCall (displayMaster l u s).trace = [] ∧
      (u = true → heldAtReturn (displayMaster l u s).trace = []) ∧
      (1 ≤ u32sub s.sharedData.produceCount s.sharedData.consumeCount →
        heldAtReturn (displayMaster l u s).trace =
          (if l = true ∧ u = false then
            [s.sharedData.consumeCount % toU32 s.render_buffer_count] else [])) := by
  have hr := renderLocked_then_skips l u
    (s.sharedData.consumeCount % toU32 s.render_buffer_count)
    RenderFunc.renderSharedTexture (skipBacklog s.render_buffer_count s.sharedData).2
    (skipBacklog_snd_skips _ _)
  refine ⟨?_, ?_, ?_⟩
  · unfold displayMaster
    split
    · rfl
    · exact hr.2
  · intro hu
    unfold displayMaster
    split
    · rfl
    · show heldAtReturn (_ ++ _) = []
      rw [hr.1, if_neg (by rw [hu]; simp)]
  · intro h1
    unfold displayMaster
    rw [if_neg (by omega)]
    exact hr.1

theorem idleMaster_locks (s : State) :
    lockedWithoutUnlockCall (idleMaster s).trace = [] ∧ heldAtReturn (idleMaster s).trace = [] := by
  unfold idleMaster
  split
  · exact ⟨rfl, rfl⟩
  · split <;> exact ⟨rfl, rfl⟩

theorem grabAllLocks_held (lock_ok : Nat → Bool) (xs : List Nat) :
    heldAtReturn (xs.map (fun i => Event.lock i (lock_ok i)) ++ [Event.postRedisplay]) =
        xs.filter lock_ok ∧
      lockedWithoutUnlockCall
          (xs.map (fun i => Event.lock i (lock_ok i)) ++ [Event.postRedisplay]) =
        xs.filter lock_ok := by
  induction xs with
  | nil => exact ⟨rfl, rfl⟩
  | cons i rest ih =>
    cases hi : lock_ok i
    · simp [heldAtReturn, lockedWithoutUnlockCall, hi, ih]
    · simp [heldAtReturn, lockedWithoutUnlockCall, hi, ih, Event.isUnlockOf,
        Event.isUnlockCallOf]

/-- The traces of the key handler on every key but `H` in the renderer: empty, a
redisplay request, or a producer tick. -/
theorem keyboard_trace_cases (i_am_renderer : Bool) (lock_ok : Nat → Bool) (u : Bool) (c : Char)
    (s : State) (hc : ¬ (c = 'H' ∧ i_am_renderer = true)) :
    (keyboard i_am_renderer lock_ok u c s).trace = [] ∨
      (keyboard i_am_renderer lock_ok u c s).trace = [Event.postRedisplay] ∨
      ∃ l, (keyboard i_am_renderer lock_ok u c s).trace = (generateNewFrame l u s).trace := by
  unfold keyboard
  by_cases h1 : c = Char.ofNat 27
  · rw [if_pos h1]; exact Or.inl rfl
  rw [if_neg h1]
  by_cases h2 : c = 't'
  · rw [if_pos h2]; exact Or.inr (Or.inl rfl)
  rw [if_neg h2]
  by_cases h3 : c = 'o'
  · rw [if_pos h3]; exact Or.inr (Or.inl rfl)
  rw [if_neg h3]
  by_cases h4 : c = ' '
  · rw [if_pos h4]
    by_cases hr : i_am_renderer = true
    · rw [if_pos hr]; exact Or.inr (Or.inr ⟨_, rfl⟩)
    · rw [if_neg hr]; exact Or.inl rfl
  rw [if_neg h4]
  by_cases h5 : c = '+' ∨ c = '='
  · rw [if_pos h5]; exact Or.inl rfl
  rw [if_neg h5]
  by_cases h6 : c = '-' ∨ c = '_'
  · rw [if_pos h6]; exact Or.inl rfl
  rw [if_neg h6]
  by_cases h7 : c = 'l'
  · rw [if_pos h7]; exact Or.inr (Or.inl rfl)
  rw [if_neg h7]
  by_cases h8 : c = 'H'
  · rw [if_pos h8]
    by_cases hr : i_am_renderer = true
    · exact absurd ⟨h8, hr⟩ hc
    · rw [if_neg hr]; exact Or.inr (Or.inl rfl)
  rw [if_neg h8]
  by_cases h9 : c = 'm'
  · rw [if_pos h9]; exact Or.inl rfl
  rw [if_neg h9]
  by_cases h10 : c = 'v'
  · rw [if_pos h10]; exact Or.inr (Or.inl rfl)
  rw [if_neg h10]
  by_cases h11 : c = Char.ofNat 13
  · rw [if_pos h11]; exact Or.inr (Or.inl rfl)
  rw [if_neg h11]
  exact Or.inl rfl

theorem keyboard_locks (i_am_renderer : Bool) (lock_ok : Nat → Bool) (u : Bool) (c : Char)
    (s : State) (hc : ¬ (c = 'H' ∧ i_am_renderer = true)) :
    lockedWithoutUnlockCall (keyboard i_am_renderer lock_ok u c s).trace = [] ∧
      (u = true → heldAtReturn (keyboard i_am_renderer lock_ok u c s).trace = []) := by
  rcases keyboard_trace_cases i_am_renderer lock_ok u c s hc with h | h | ⟨l, h⟩
  · rw [h]; exact ⟨rfl, fun _ => rfl⟩
  · rw [h]; exact ⟨rfl, fun _ => rfl⟩
  · rw [h]; exact ⟨(generateNewFrame_locks l u s).1, (generateNewFrame_locks l u s).2.1⟩

/-- C15, counterexample. In the renderer with four buffers the `H` key runs
`grabAllLocks`: the handler locks slots 0, 1, 2 and 3, calls no unlock, and
returns with all four locks held. And a producer tick whose lock succeeds and
whose `wglDXUnlockObjectsNV` fails returns with the lock of slot 0 held, as does
a redraw with one frame waiting. -/
theorem hang_key_keeps_locks_counterexample :
    (keyboard true (fun _ => true) true 'H' (initialState 4)).trace =
      [Event.lock 0 true, Event.lock 1 true, Event.lock 2 true, Event.lock 3 true,
       Event.postRedisplay] ∧
    (keyboard true (fun _ => true) true 'H' (initialState 4)).exit = none ∧
    heldAtReturn (keyboard true (fun _ => true) true 'H' (initialState 4)).trace = [0, 1, 2, 3] ∧
    heldAtReturn (menu true (fun _ => true) true 'H' (initialState 4)).trace ≠ [] ∧
    (generateNewFrame true false (initialState 4)).trace =
      [Event.lock 0 true, Event.call RenderFunc.renderSceneToTexture 0, Event.unlock 0 false] ∧
    heldAtReturn (generateNewFrame true false (initialState 4)).trace = [0] ∧
    (displayMaster true false (produceFrames 1 (initialState 4))).trace =
      [Event.lock 0 true, Event.call RenderFunc.renderSharedTexture 0, Event.unlock 0 false] ∧
    heldAtReturn (displayMaster true false (produceFrames 1 (initialState 4))).trace = [0] := by
  rw [displayMaster_eq true false _ (by decide)]
  decide

/-- C15, amended. For the producer tick, the idle poll, the redraw and the
key/menu handler on every key other than `H` in the renderer, every slot lock
the callback acquires is followed by an unlock call on that slot before the
callback returns, and no lock is held at return when that call succeeds; when
the call fails, the lock a producer tick or a redraw acquired is still held at
return. The `H` action of the handler in the renderer calls `grabAllLocks`,
which locks every slot in use and calls no unlock: the handler returns holding
each lock it acquired. -/
theorem locks_released_except_hang_key (s : State) (lock_ok : Nat → Bool) (l u : Bool)
    (i_am_renderer : Bool) (c : Char) :
    (lockedWithoutUnlockCall (generateNewFrame l u s).trace = [] ∧
      lockedWithoutUnlockCall (idleMaster s).trace = [] ∧
      lockedWithoutUnlockCall (displayMaster l u s).trace = [] ∧
      (¬ (c = 'H' ∧ i_am_renderer = true) →
        lockedWithoutUnlockCall (keyboard i_am_renderer lock_ok u c s).trace = [] ∧
        lockedWithoutUnlockCall (menu i_am_renderer lock_ok u c s).trace = [])) ∧
    (heldAtReturn (generateNewFrame l true s).trace = [] ∧
      heldAtReturn (idleMaster s).trace = [] ∧
      heldAtReturn (displayMaster l true s).trace = [] ∧
      (¬ (c = 'H' ∧ i_am_renderer = true) →
        heldAtReturn (keyboard i_am_renderer lock_ok true c s).trace = [] ∧
        heldAtReturn (menu i_am_renderer lock_ok true c s).trace = [])) ∧
    ((s.sharedData.renderer_should_terminate = false →
        u32sub s.sharedData.produceCount s.sharedData.consumeCount ≠
          toU32 s.render_buffer_count →
        heldAtReturn (generateNewFrame true false s).trace =
          [s.sharedData.produceCount % toU32 s.render_buffer_count]) ∧
      (1 ≤ u32sub s.sharedData.produceCount s.sharedData.consumeCount →
        heldAtReturn (displayMaster true false s).trace =
          [s.sharedData.consumeCount % toU32 s.render_buffer_count])) ∧
    ((keyboard true lock_ok u 'H' s).trace =
        grabAllLocks lock_ok s.render_buffer_count ++ [Event.postRedisplay] ∧
      lockedWithoutUnlockCall (keyboard true lock_ok u 'H' s).trace =
        (List.range s.render_buffer_count.toNat).filter lock_ok ∧
      heldAtReturn (keyboard true lock_ok u 'H' s).trace =
        (List.range s.render_buffer_count.toNat).filter lock_ok) := by
  have hH : (keyboard true lock_ok u 'H' s).trace =
      grabAllLocks lock_ok s.render_buffer_count ++ [Event.postRedisplay] := by
    simp [keyboard]
  refine ⟨⟨(generateNewFrame_locks l u s).1, (idleMaster_locks s).1,
      (displayMaster_locks l u s).1, ?_⟩,
    ⟨(generateNewFrame_locks l true s).2.1 rfl, (idleMaster_locks s).2,
      (displayMaster_locks l true s).2.1 rfl, ?_⟩, ⟨?_, ?_⟩, ⟨hH, ?_, ?_⟩⟩
  · intro hc
    exact ⟨(keyboard_locks i_am_renderer lock_ok u c s hc).1,
      (keyboard_locks i_am_renderer lock_ok u c s hc).1⟩
  · intro hc
    exact ⟨(keyboard_locks i_am_renderer lock_ok true c s hc).2 rfl,
      (keyboard_locks i_am_renderer lock_ok true c s hc).2 rfl⟩
  · intro hf hne
    rw [(generateNewFrame_locks true false s).2.2 hf hne, if_pos ⟨rfl, rfl⟩]
  · intro h1
    rw [(displayMaster_locks true false s).2.2 h1, if_pos ⟨rfl, rfl⟩]
  · rw [hH]
    exact (grabAllLocks_held lock_ok _).2
  · rw [hH]
    exact (grabAllLocks_held lock_ok _).1

/-- Witness for C15, amended: the space key in the renderer, which runs a
producer tick that locks and unlocks slot 0, and a tick whose unlock fails. -/
theorem locks_released_except_hang_key_witness :
    ¬ (' ' = 'H' ∧ true = true) ∧
    (keyboard true (fun _ => true) true ' ' (initialState 4)).trace =
      [Event.lock 0 true, Event.call RenderFunc.renderSceneToTexture 0, Event.unlock 0 true] ∧
    heldAtReturn (keyboard true (fun _ => true) true ' ' (initialState 4)).trace = [] ∧
    (initialState 4).sharedData.renderer_should_terminate = false ∧
    u32sub (initialState 4).sharedData.produceCount (initialState 4).sharedData.consumeCount ≠
      toU32 (initialState 4).render_buffer_count ∧
    heldAtReturn (generateNewFrame true false (initialState 4)).trace =
      [(initialState 4).sharedData.produceCount % toU32 (initialState 4).render_buffer_count] :=
  ⟨by decide, by decide,
   ((locks_released_except_hang_key (initialState 4) (fun _ => true) true true true ' ').2.1.2.2.2
      (by decide)).1,
   by decide, by decide,
   (locks_released_except_hang_key (initialState 4) (fun _ => true) true true true ' ').2.2.1.1
      (by decide) (by decide)⟩

/-! ## Slots of producer and consumer -/

theorem generateNewFrame_lockedSlots (l u : Bool) (s : State)
    (hf : s.sharedData.renderer_should_terminate = false)
    (hne : u32sub s.sharedData.produceCount s.sharedData.consumeCount ≠ toU32 s.render_buffer_count) :
    lockedSlots (generateNewFrame l u s).trace =
      [s.sharedData.produceCount % toU32 s.render_buffer_count] := by
  unfold generateNewFrame
  rw [if_neg (by rw [hf]; decide), if_neg hne]
  cases l <;> cases u <;> rfl

theorem displayMaster_lockedSlots (l u : Bool) (s : State)
    (hc : s.sharedData.consumeCount < 4294967296)
    (h1 : 1 ≤ u32sub s.sharedData.produceCount s.sharedData.consumeCount) :
    lockedSlots (displayMaster l u s).trace =
      [s.sharedData.consumeCount % toU32 s.render_buffer_count] := by
  rw [displayMaster_eq l u s hc, if_neg (by omega)]
  show lockedSlots (_ ++ _) = _
  rw [lockedSlots_append, (skipTrace_no_lock_no_call _ _ _).1]
  cases l <;> cases u <;> rfl

/-- Every pair of counter values `produceCount = k + 1`, `consumeCount = k`
(modulo `2^32`) is reached, with the exit flag of the renderer unset: produce one
frame, then alternate producer tick and redraw. -/
theorem Reachable_one_ahead (n : Int) (hn : 2 ≤ n ∧ n ≤ 4) (k : Nat) :
    ∃ s, Reachable n s ∧ s.render_buffer_count = n ∧
      s.sharedData.renderer_should_terminate = false ∧
      s.sharedData.produceCount = (k + 1) % 4294967296 ∧
      s.sharedData.consumeCount = k % 4294967296 := by
  have hnu : toU32 n = n.toNat := toU32_of_nonneg n (by omega) (by omega)
  induction k with
  | zero =>
    refine ⟨(generateNewFrame true true (initialState n)).st,
      Reachable.produce _ true true (Reachable.init _ rfl rfl rfl), ?_⟩
    have hne : ¬ (u32sub (initialState n).sharedData.produceCount
        (initialState n).sharedData.consumeCount = toU32 (initialState n).render_buffer_count) := by
      show ¬ (u32sub 0 0 = toU32 n)
      rw [hnu]; unfold u32sub; omega
    have hnf : ¬ ((initialState n).sharedData.renderer_should_terminate = true) :=
      Bool.false_ne_true
    unfold generateNewFrame
    rw [if_neg hnf, if_neg hne]
    exact ⟨rfl, rfl, rfl, rfl⟩
  | succ k ih =>
    obtain ⟨s, hr, hrbc, hf, hp, hc⟩ := ih
    have hne : ¬ (u32sub s.sharedData.produceCount s.sharedData.consumeCount =
        toU32 s.render_buffer_count) := by
      rw [hrbc, hnu, hp, hc]; unfold u32sub; omega
    have hg : (generateNewFrame true true s).st =
        { s with sharedData :=
            { s.sharedData with produceCount := InterlockedIncrement s.sharedData.produceCount } } := by
      unfold generateNewFrame
      rw [if_neg (by rw [hf]; decide), if_neg hne]
    refine ⟨(displayMaster true true (generateNewFrame true true s).st).st,
      Reachable.display _ true true (Reachable.produce _ true true hr), ?_⟩
    rw [hg, displayMaster_eq true true _ (by show s.sharedData.consumeCount < _; omega)]
    have hd : u32sub (InterlockedIncrement s.sharedData.produceCount) s.sharedData.consumeCount = 2 := by
      rw [hp, hc]; unfold u32sub InterlockedIncrement; omega
    simp only [hd]
    refine ⟨hrbc, hf, ?_, ?_⟩
    · show InterlockedIncrement s.sharedData.produceCount = _
      rw [hp]; unfold InterlockedIncrement; omega
    · show (s.sharedData.consumeCount + (2 - 1)) % 4294967296 = _
      rw [hc]; omega

/-- For two and for four buffers the slots differ whenever `1 ≤ d < n`, and for
three buffers they differ as long as `produceCount` has not wrapped past
`consumeCount`. -/
theorem slots_differ_without_wrap (n pc cc : Nat) (hn : n = 2 ∨ n = 3 ∨ n = 4)
    (hp : pc < 4294967296) (hc : cc < 4294967296)
    (h1 : 1 ≤ u32sub pc cc) (h2 : u32sub pc cc < n)
    (hw : n = 3 → cc ≤ pc) : pc % n ≠ cc % n := by
  unfold u32sub at h1 h2
  rcases hn with h | h | h
  · subst h; omega
  · subst h
    have hle := hw rfl
    have e : (pc + 4294967296 - cc) % 4294967296 = pc - cc := by omega
    rw [e] at h1 h2
    omega
  · subst h; omega

/-- C16, the code at the failing input. With three buffers the state
`produceCount = 0`, `consumeCount = 4294967295` is reachable (after `2^32`
frames, `produceCount` has wrapped and `consumeCount` has not); its wrap-around
difference is 1, within `1 ≤ d < 3`, yet `produceCount mod 3` and
`consumeCount mod 3` are both 0: the next producer tick and the next redraw
lock the same slot 0. -/
theorem same_slot_after_wraparound :
    ∃ s, Reachable 3 s ∧ s.render_buffer_count = 3 ∧
      s.sharedData.produceCount = 0 ∧ s.sharedData.consumeCount = 4294967295 ∧
      u32sub s.sharedData.produceCount s.sharedData.consumeCount = 1 ∧
      s.sharedData.produceCount % 3 = s.sharedData.consumeCount % 3 ∧
      lockedSlots (generateNewFrame true true s).trace = [0] ∧
      lockedSlots (displayMaster true true s).trace = [0] := by
  obtain ⟨s, hr, hrbc, hf, hp, hc⟩ := Reachable_one_ahead 3 (by decide) 4294967295
  have hp0 : s.sharedData.produceCount = 0 := hp
  have hc1 : s.sharedData.consumeCount = 4294967295 := hc
  have h3 : toU32 s.render_buffer_count = 3 := by rw [hrbc]; decide
  have hd : u32sub s.sharedData.produceCount s.sharedData.consumeCount = 1 := by
    rw [hp0, hc1]; decide
  refine ⟨s, hr, hrbc, hp0, hc1, hd, by rw [hp0, hc1], ?_, ?_⟩
  · rw [generateNewFrame_lockedSlots true true s hf (by rw [hd, h3]; decide), hp0, h3]
  · rw [displayMaster_lockedSlots true true s (by omega) (by omega), hc1, h3]

/-! ## The ring does not become empty again -/

theorem InvNonEmpty_of_Reachable (n : Int) (s : State) (h : Reachable n s) : InvNonEmpty n s := by
  induction h with
  | init s h1 hp hc =>
    exact ⟨Inv_of_Reachable n s (Reachable.init s h1 hp hc), fun _ => ⟨hp, hc⟩⟩
  | produce s l u hr ih =>
    refine ⟨Inv_generateNewFrame n l u s ih.1, ?_⟩
    obtain ⟨⟨h1, ⟨hp, hc⟩, h3⟩, h4⟩ := ih
    unfold generateNewFrame
    split
    · exact h4
    · split
      · exact h4
      · rename_i hne
        intro h0
        exfalso
        rw [h1] at hne
        simp only [u32sub, InterlockedIncrement, toU32] at *
        omega
  | idle s hr ih =>
    refine ⟨Inv_idleMaster n s ih.1, ?_⟩
    rw [idleMaster_sharedData]
    exact ih.2
  | display s l u hr ih =>
    refine ⟨Inv_displayMaster n l u s ih.1, ?_⟩
    obtain ⟨⟨h1, ⟨hp, hc⟩, h3⟩, h4⟩ := ih
    rw [displayMaster_eq l u s hc]
    split
    · exact h4
    · intro h0
      exfalso
      simp only [u32sub] at *
      split at h0 <;> omega
  | masterExit s hr ih => exact ih
  | rendererExit s hr ih => exact ih

theorem Reachable_of_ReachableTicks (n : Int) (k : Nat) (s : State)
    (h : ReachableTicks n k s) : Reachable n s := by
  induction h with
  | init s h1 hp hc => exact Reachable.init s h1 hp hc
  | produce s l u k _ ih => exact Reachable.produce s l u ih
  | idle s k _ ih => exact Reachable.idle s ih
  | display s l u k _ ih => exact Reachable.display s l u ih
  | masterExit s k _ ih => exact Reachable.masterExit s ih
  | rendererExit s k _ ih => exact Reachable.rendererExit s ih

theorem ReachableTicks_of_Reachable (n : Int) (s : State) (h : Reachable n s) :
    ∃ k, ReachableTicks n k s := by
  induction h with
  | init s h1 hp hc => exact ⟨0, ReachableTicks.init s h1 hp hc⟩
  | produce s l u _ ih =>
    obtain ⟨k, hk⟩ := ih
    exact ⟨_, ReachableTicks.produce s l u k hk⟩
  | idle s _ ih =>
    obtain ⟨k, hk⟩ := ih
    exact ⟨k, ReachableTicks.idle s k hk⟩
  | display s l u _ ih =>
    obtain ⟨k, hk⟩ := ih
    exact ⟨k, ReachableTicks.display s l u k hk⟩
  | masterExit s _ ih =>
    obtain ⟨k, hk⟩ := ih
    exact ⟨k, ReachableTicks.masterExit s k hk⟩
  | rendererExit s _ ih =>
    obtain ⟨k, hk⟩ := ih
    exact ⟨k, ReachableTicks.rendererExit s k hk⟩

/-- With 32-bit counters and a wrap-around difference between 1 and the buffer
count, no operation brings the difference to 0. -/
theorem nonempty_preserved (s : State) (hwf : s.sharedData.WF)
    (h1 : 1 ≤ u32sub s.sharedData.produceCount s.sharedData.consumeCount)
    (hle : u32sub s.sharedData.produceCount s.sharedData.consumeCount ≤
      toU32 s.render_buffer_count) (op : Op) :
    1 ≤ u32sub (op.run s).st.sharedData.produceCount (op.run s).st.sharedData.consumeCount := by
  obtain ⟨hp, hc⟩ := hwf
  cases op with
  | producerTick l u =>
    simp only [Op.run]
    unfold generateNewFrame
    split
    · exact h1
    · split
      · exact h1
      · rename_i hne
        simp only [u32sub, InterlockedIncrement, toU32] at *
        omega
  | idlePoll =>
    simp only [Op.run, idleMaster_sharedData]
    exact h1
  | redraw l u =>
    simp only [Op.run]
    rw [displayMaster_eq l u s hc, if_neg (by omega)]
    simp only [u32sub] at *
    split <;> omega

/-- Once a producer tick has incremented `produceCount`, the wrap-around
difference is at least 1. -/
theorem ReachableTicks_nonempty (n : Int) (k : Nat) (s : State) (h : ReachableTicks n k s) :
    0 < k → 1 ≤ u32sub s.sharedData.produceCount s.sharedData.consumeCount := by
  induction h with
  | init s h1 hp hc => intro hk; omega
  | produce s l u k hr ih =>
    obtain ⟨hrbc, hwf, hle⟩ := Inv_of_Reachable n s (Reachable_of_ReachableTicks n k s hr)
    rw [← hrbc] at hle
    intro hk
    by_cases he : (generateNewFrame l u s).st.sharedData.produceCount = s.sharedData.produceCount
    · rw [if_pos he] at hk
      rw [he, generateNewFrame_consumeCount]
      exact ih hk
    · revert he
      unfold generateNewFrame
      split
      · intro he; exact absurd rfl he
      · split
        · intro he; exact absurd rfl he
        · rename_i hne
          intro _
          obtain ⟨hp, hc⟩ := hwf
          simp only [u32sub, InterlockedIncrement, toU32] at *
          omega
  | idle s k hr ih =>
    intro hk
    rw [idleMaster_sharedData]
    exact ih hk
  | display s l u k hr ih =>
    obtain ⟨hrbc, hwf, hle⟩ := Inv_of_Reachable n s (Reachable_of_ReachableTicks n k s hr)
    rw [← hrbc] at hle
    intro hk
    exact nonempty_preserved s hwf (ih hk) hle (Op.redraw l u)
  | masterExit s k hr ih => exact ih
  | rendererExit s k hr ih => exact ih

/-- C17. For `n` in `2..4` and every reachable state whose wrap-around
difference `produceCount - consumeCount` is at least 1, the difference is
still at least 1 after any producer tick, idle poll or redraw; hence in every
reachable state a redraw takes the waiting-indicator branch only if no producer
tick has yet incremented `produceCount`: both counters are still 0, and every
run that reaches the state has 0 incrementing ticks. -/
theorem ring_stays_nonempty (n : Int) (hn : 2 ≤ n ∧ n ≤ 4) (s : State)
    (hr : Reachable n s) :
    (1 ≤ u32sub s.sharedData.produceCount s.sharedData.consumeCount →
      ∀ op : Op, 1 ≤ u32sub (op.run s).st.sharedData.produceCount
        (op.run s).st.sharedData.consumeCount) ∧
    (∀ l u : Bool, (displayMaster l u s).trace = [Event.waiting] →
      (s.sharedData.produceCount = 0 ∧ s.sharedData.consumeCount = 0) ∧
      ∀ k, ReachableTicks n k s → k = 0) := by
  have _ := hn
  obtain ⟨⟨hrbc, hwf, hle⟩, h4⟩ := InvNonEmpty_of_Reachable n s hr
  constructor
  · intro h1 op
    rw [← hrbc] at hle
    exact nonempty_preserved s hwf h1 hle op
  · intro l u ht
    have h0 : u32sub s.sharedData.produceCount s.sharedData.consumeCount = 0 := by
      rw [displayMaster_eq l u s hwf.2] at ht
      by_cases h0 : u32sub s.sharedData.produceCount s.sharedData.consumeCount < 1
      · omega
      · rw [if_neg h0] at ht
        exfalso
        cases l <;> cases u <;> simp [renderLockedSharedTexture] at ht
    refine ⟨h4 h0, ?_⟩
    intro k hk
    by_cases hk0 : 0 < k
    · have := ReachableTicks_nonempty n k s hk hk0
      omega
    · omega

/-- Witness for C17: one frame waiting in a ring of four, reached by one
producer tick. -/
theorem ring_stays_nonempty_witness :
    ((2 : Int) ≤ 4 ∧ (4 : Int) ≤ 4) ∧
    Reachable 4 (produceFrames 1 (initialState 4)) ∧
    1 ≤ u32sub (produceFrames 1 (initialState 4)).sharedData.produceCount
      (produceFrames 1 (initialState 4)).sharedData.consumeCount ∧
    1 ≤ u32sub ((Op.redraw true true).run (produceFrames 1 (initialState 4))).st.sharedData.produceCount
      ((Op.redraw true true).run (produceFrames 1 (initialState 4))).st.sharedData.consumeCount :=
  ⟨by decide, Reachable_produceFrames 4 1 _ (Reachable.init _ rfl rfl rfl), by decide,
   (ring_stays_nonempty 4 (by decide) (produceFrames 1 (initialState 4))
     (Reachable_produceFrames 4 1 _ (Reachable.init _ rfl rfl rfl))).1 (by decide)
     (Op.redraw true true)⟩

/-! ## Initialisation of the control block -/

theorem strstr_bound (needle : List Char) :
    ∀ (haystack : List Char) (w : Nat), strstr haystack needle = some w →
      w + needle.length ≤ haystack.length := by
  intro haystack
  induction haystack with
  | nil =>
    intro w h
    unfold strstr at h
    split at h
    · rename_i hn
      cases h
      simp [hn]
    · cases h
  | cons c rest ih =>
    intro w h
    unfold strstr at h
    split at h
    · rename_i hp
      cases h
      have := (List.isPrefixOf_iff_prefix.mp hp).length_le
      omega
    · cases hr : strstr rest needle with
      | none => rw [hr] at h; cases h
      | some w1 =>
        rw [hr] at h
        cases h
        have := ih w1 hr
        simp only [List.length_cons]
        omega

/-- For a non-empty extension name the loop of `findExtension` returns: every
pass that does not return moves `start` forward by at least the length of the
name. -/
theorem findExtensionLoop_returns (extension : List Char) (hne : extension ≠ []) :
    ∀ (fuel : Nat) (start : List Char), start.length < fuel →
      ∃ r, findExtensionLoop extension fuel start = some r ∧ (r = 0 ∨ r = 1) := by
  intro fuel
  induction fuel with
  | zero => intro start h; omega
  | succ fuel ih =>
    intro start h
    unfold findExtensionLoop
    cases hs : strstr start extension with
    | none => exact ⟨0, rfl, Or.inl rfl⟩
    | some w =>
      simp only
      split
      · exact ⟨1, rfl, Or.inr rfl⟩
      · apply ih
        have hb := strstr_bound extension start w hs
        have hl : 0 < extension.length := List.length_pos.mpr hne
        rw [List.length_drop]
        omega

theorem findExtension_returns (extension extensions : String) (hne : extension.data ≠ []) :
    ∃ r, findExtension extension extensions = some r ∧ (r = 0 ∨ r = 1) :=
  findExtensionLoop_returns extension.data hne _ _ (Nat.lt_succ_self _)

/-- C19, the code at the failing input. The name `ab` is not empty and has no
space, the extension string `abab` holds the single name `abab`, and
`findExtension` returns 1: the first match, at offset 0, fails the terminator
test and moves `start` to offset 2, and the second match passes the test
`where == start` in the middle of the longer name. -/
theorem findExtension_accepts_part_of_name :
    findExtension "ab" "abab" = some 1 ∧
    extensionNames "abab" = ["abab".data] ∧
    "ab".data ∉ extensionNames "abab" ∧
    "ab".data ≠ [] ∧ ' ' ∉ "ab".data ∧
    strstr "abab".data "ab".data = some 0 ∧
    strstr ("abab".data.drop 2) "ab".data = some 0 ∧
    findExtension "WGL_NV_DX_interop2" "WGL_NV_DX_interop2WGL_NV_DX_interop2" = some 1 ∧
    findExtension "WGL_NV_DX_interop" "WGL_ARB_pbuffer WGL_NV_DX_interop2" = some 0 ∧
    findExtension "WGL_NV_DX_interop2" "WGL_ARB_pbuffer WGL_NV_DX_interop WGL_NV_DX_interop2" =
      some 1 := by
  decide

/-! ## Mip levels -/

theorem ilog2Loop_eq (val ret : Nat) :
    ret + Nat.log 2 val < 4294967296 → ilog2Loop val ret = ret + Nat.log 2 val := by
  induction val, ret using ilog2Loop.induct with
  | case1 val ret h ih =>
    intro hb
    have hl : Nat.log 2 val = Nat.log 2 (val / 2) + 1 :=
      Nat.log_of_one_lt_of_le (by decide) (by omega)
    rw [ilog2Loop, if_pos h]
    have hr : (ret + 1) % 4294967296 = ret + 1 := by omega
    rw [hr] at ih ⊢
    rw [ih (by omega), hl]
    omega
  | case2 val ret h =>
    intro _
    rw [ilog2Loop, if_neg h, Nat.log_of_lt (by omega)]
    rfl

/-- On a non-zero `unsigned int` the function `ilog2` returns the floor of the
base-2 logarithm. -/
theorem ilog2_eq_log (val : Nat) (h1 : 1 ≤ val) (h2 : val < 4294967296) :
    ilog2 val = some (Nat.log 2 val) := by
  have hlt : Nat.log 2 val < 32 := Nat.log_lt_of_lt_pow (by omega) (by omega)
  unfold ilog2
  rw [if_neg (by omega)]
  split
  · rename_i h
    rw [h, Nat.log_one_right]
  · rw [ilog2Loop_eq val 0 (by omega), Nat.zero_add]

theorem max_self_range (w h : Int) (hw : 32 ≤ w ∧ w ≤ 4096) (hh : 32 ≤ h ∧ h ≤ 4096) :
    32 ≤ toU32 (max w h) ∧ toU32 (max w h) ≤ 4096 := by
  unfold max toU32
  split <;> omega

theorem optionStep_size (atoi atoll : String → Int) (a : String) (next : Option String)
    (g : Globals)
    (hg : (32 ≤ g.fbo_width ∧ g.fbo_width ≤ 4096) ∧ g.fbo_height = g.fbo_width) :
    (∀ g1, optionStep atoi atoll a next g = OptionStep.next g1 →
      (32 ≤ g1.fbo_width ∧ g1.fbo_width ≤ 4096) ∧ g1.fbo_height = g1.fbo_width) ∧
    (∀ g1, optionStep atoi atoll a next g = OptionStep.next2 g1 →
      (32 ≤ g1.fbo_width ∧ g1.fbo_width ≤ 4096) ∧ g1.fbo_height = g1.fbo_width) ∧
    (∀ g1 x, optionStep atoi atoll a next g = OptionStep.renderer g1 x →
      (32 ≤ g1.fbo_width ∧ g1.fbo_width ≤ 4096) ∧ g1.fbo_height = g1.fbo_width) := by
  have hclamp : ∀ v : Int, 32 ≤ max 32 (min v 4096) ∧ max 32 (min v 4096) ≤ 4096 := by
    intro v
    unfold max min
    constructor <;> split <;> split <;> omega
  refine ⟨?_, ?_, ?_⟩
  · intro g1 h
    unfold optionStep at h
    repeat' (split at h)
    all_goals first | (cases h; exact hg) | cases h
  · intro g1 h
    unfold optionStep at h
    repeat' (split at h)
    all_goals first | (cases h; exact hg) | (cases h; exact ⟨hclamp _, rfl⟩) | cases h
  · intro g1 x h
    unfold optionStep at h
    repeat' (split at h)
    all_goals first | (cases h; exact hg) | cases h

/-- After the option loop the buffer is square with a side in `[32, 4096]`. -/
theorem parseArgs_size (atoi atoll : String → Int) (args : List String) (g : Globals) :
    ((32 ≤ g.fbo_width ∧ g.fbo_width ≤ 4096) ∧ g.fbo_height = g.fbo_width) →
    ∀ g1 h, parseArgs atoi atoll args g = Parsed.run g1 h →
      (32 ≤ g1.fbo_width ∧ g1.fbo_width ≤ 4096) ∧ g1.fbo_height = g1.fbo_width := by
  induction args, g using parseArgs.induct atoi atoll with
  | case1 g =>
    intro hg g1 h hr
    simp only [parseArgs, Parsed.run.injEq] at hr
    rw [← hr.1]; exact hg
  | case2 a g c hs => intro hg g1 h hr; simp [parseArgs, hs] at hr
  | case3 a g g2 x hs =>
    intro hg g1 h hr
    simp only [parseArgs, hs, Parsed.run.injEq] at hr
    rw [← hr.1]
    exact (optionStep_size atoi atoll a none g hg).2.2 g2 x hs
  | case4 a g g2 hs =>
    intro hg g1 h hr
    simp only [parseArgs, hs, Parsed.run.injEq] at hr
    rw [← hr.1]
    exact (optionStep_size atoi atoll a none g hg).1 g2 hs
  | case5 a g g2 hs =>
    intro hg g1 h hr
    simp only [parseArgs, hs, Parsed.run.injEq] at hr
    rw [← hr.1]
    exact (optionStep_size atoi atoll a none g hg).2.1 g2 hs
  | case6 a v rest g c hs => intro hg g1 h hr; simp [parseArgs, hs] at hr
  | case7 a v rest g g2 x hs =>
    intro hg g1 h hr
    simp only [parseArgs, hs, Parsed.run.injEq] at hr
    rw [← hr.1]
    exact (optionStep_size atoi atoll a (some v) g hg).2.2 g2 x hs
  | case8 a v rest g g2 hs ih =>
    intro hg g1 h hr
    simp only [parseArgs, hs] at hr
    exact ih ((optionStep_size atoi atoll a (some v) g hg).1 g2 hs) g1 h hr
  | case9 a v rest g g2 hs ih =>
    intro hg g1 h hr
    simp only [parseArgs, hs] at hr
    exact ih ((optionStep_size atoi atoll a (some v) g hg).2.1 g2 hs) g1 h hr

/-- C20, counterexample. With `-nomipmap -size 64` the buffer is 64 by 64, within
`[32, 4096]`, `mipmap_sharetex` is false, and `createTexture2D` passes a mip
level count of 1, not a value between 5 and 12. -/
theorem mip_levels_counterexample :
    parseArgs (fun _ => 64) (fun _ => 0) ["-nomipmap", "-size", "64"] Globals.initial =
      Parsed.run { Globals.initial with mipmap_sharetex := false, fbo_width := 64,
                                        fbo_height := 64 } none ∧
    createTexture2D_MipLevels false 64 64 = some 1 ∧
    ¬ (∃ r, createTexture2D_MipLevels false 64 64 = some r ∧ 5 ≤ r ∧ r ≤ 12) := by
  refine ⟨by decide, rfl, ?_⟩
  rintro ⟨r, hr, h5, _⟩
  have h1 : createTexture2D_MipLevels false 64 64 = some 1 := rfl
  rw [h1] at hr
  cases hr
  omega

/-- C20, amended. For every 32-bit unsigned `val ≥ 1`, `ilog2(val)` ends without
tripping its assertion and returns the unique `r` with `2^r ≤ val < 2^(r+1)`;
the option loop leaves a square buffer with a side in `[32, 4096]`; and for every
width and height in `[32, 4096]` the mip level count `createTexture2D` passes
is `ilog2` of the larger one, between 5 and 12, when `mipmap_sharetex` is set
(the default), and 1 when it is cleared by `-nomipmap`. -/
theorem ilog2_floor_log2_and_mip_levels :
    (∀ val : Nat, 1 ≤ val → val < 4294967296 →
      ∃ r, ilog2 val = some r ∧ 2 ^ r ≤ val ∧ val < 2 ^ (r + 1) ∧
        ∀ r1, 2 ^ r1 ≤ val → val < 2 ^ (r1 + 1) → r1 = r) ∧
    (∀ (atoi atoll : String → Int) (args : List String) (g : Globals) (h : Option Int),
      parseArgs atoi atoll args Globals.initial = Parsed.run g h →
      (32 ≤ g.fbo_width ∧ g.fbo_width ≤ 4096) ∧ g.fbo_height = g.fbo_width) ∧
    (∀ width height : Int, 32 ≤ width ∧ width ≤ 4096 → 32 ≤ height ∧ height ≤ 4096 →
      (∃ r, createTexture2D_MipLevels true width height = some r ∧
        ilog2 (toU32 (max width height)) = some r ∧ 5 ≤ r ∧ r ≤ 12) ∧
      createTexture2D_MipLevels false width height = some 1) := by
  refine ⟨?_, ?_, ?_⟩
  · intro val h1 h2
    refine ⟨Nat.log 2 val, ilog2_eq_log val h1 h2, Nat.pow_log_le_self 2 (by omega),
      Nat.lt_pow_succ_log_self (by decide) val, ?_⟩
    intro r1 ha hb
    exact (Nat.log_eq_of_pow_le_of_lt_pow ha hb).symm
  · intro atoi atoll args g h hr
    exact parseArgs_size atoi atoll args Globals.initial ⟨by decide, rfl⟩ g h hr
  · intro width height hw hh
    obtain ⟨ha, hb⟩ := max_self_range width height hw hh
    refine ⟨⟨Nat.log 2 (toU32 (max width height)), ?_, ?_, ?_, ?_⟩, rfl⟩
    · show ilog2 (toU32 (max width height)) = _
      exact ilog2_eq_log _ (by omega) (by omega)
    · exact ilog2_eq_log _ (by omega) (by omega)
    · exact Nat.le_log_of_pow_le (by decide) (by omega)
    · have := Nat.log_lt_of_lt_pow (b := 2) (x := 13) (y := toU32 (max width height))
        (by omega) (by omega)
      omega

/-- Witness for C20, amended: `val = 500`, the default size, and the command line
`-size 64`. -/
theorem ilog2_floor_log2_and_mip_levels_witness :
    (1 ≤ 500 ∧ 500 < 4294967296) ∧
    (∃ r, ilog2 500 = some r ∧ 2 ^ r ≤ 500 ∧ 500 < 2 ^ (r + 1) ∧
        ∀ r1, 2 ^ r1 ≤ 500 → 500 < 2 ^ (r1 + 1) → r1 = r) ∧
    parseArgs (fun _ => 64) (fun _ => 0) ["-size", "64"] Globals.initial =
      Parsed.run { Globals.initial with fbo_width := 64, fbo_height := 64 } none ∧
    ((32 : Int) ≤ 64 ∧ (64 : Int) ≤ 4096) ∧
    (∃ r, createTexture2D_MipLevels true 64 64 = some r ∧
        ilog2 (toU32 (max 64 64)) = some r ∧ 5 ≤ r ∧ r ≤ 12) :=
  ⟨by decide,
   ilog2_floor_log2_and_mip_levels.1 500 (by decide) (by decide),
   by decide, by decide,
   (ilog2_floor_log2_and_mip_levels.2.2 64 64 (by decide) (by decide)).1⟩

end Interop
